import Mathlib

/-!
# Xarcade2Jstick event remapping loop (src/main.c)

A shallow embedding of the read/dispatch loop of `main` and of the three
output helpers `x2j_write`, `x2j_write_keyboard` and `x2j_write_gpad`.

* The virtual devices are external; every call made on them is recorded, in
  program order, as an `Action` (a write or a settle delay).
* `mame` is a global that the SIGUSR1/SIGUSR2 handlers may change at any
  moment; each event is therefore processed under its own mode value.
* `keyStates` is a `char[256]` local of `main` without initialiser, so a run
  may start from any contents; `combo` is an `int` local initialised to 0.
* Storing into `keyStates[code]` with `code >= 256` is outside the array: the
  model has no result there (`none`).
-/

namespace Xarcade2Jstick

/-! ## Constants of linux/input-event-codes.h used by main.c -/

def EV_KEY : Nat := 1
def EV_ABS : Nat := 3
def EV_MSC : Nat := 4

def KEY_ESC : Nat := 1
def KEY_1 : Nat := 2
def KEY_2 : Nat := 3
def KEY_3 : Nat := 4
def KEY_4 : Nat := 5
def KEY_5 : Nat := 6
def KEY_6 : Nat := 7
def KEY_Q : Nat := 16
def KEY_W : Nat := 17
def KEY_E : Nat := 18
def KEY_R : Nat := 19
def KEY_LEFTBRACE : Nat := 26
def KEY_RIGHTBRACE : Nat := 27
def KEY_LEFTCTRL : Nat := 29
def KEY_A : Nat := 30
def KEY_S : Nat := 31
def KEY_D : Nat := 32
def KEY_F : Nat := 33
def KEY_G : Nat := 34
def KEY_LEFTSHIFT : Nat := 42
def KEY_Z : Nat := 44
def KEY_X : Nat := 45
def KEY_C : Nat := 46
def KEY_LEFTALT : Nat := 56
def KEY_SPACE : Nat := 57
def KEY_KP8 : Nat := 72
def KEY_KP4 : Nat := 75
def KEY_KP6 : Nat := 77
def KEY_KP2 : Nat := 80
def KEY_UP : Nat := 103
def KEY_LEFT : Nat := 105
def KEY_RIGHT : Nat := 106
def KEY_DOWN : Nat := 108

def BTN_A : Nat := 0x130
def BTN_B : Nat := 0x131
def BTN_C : Nat := 0x132
def BTN_X : Nat := 0x133
def BTN_Y : Nat := 0x134
def BTN_Z : Nat := 0x135
def BTN_TL : Nat := 0x136
def BTN_TR : Nat := 0x137
def BTN_SELECT : Nat := 0x13a
def BTN_START : Nat := 0x13b

def ABS_X : Nat := 0
def ABS_Y : Nat := 1

/-! ## Constants of main.c -/

def GPAD1 : Nat := 0
def GPAD2 : Nat := 1

/-! ## Data model -/

/-- One entry of `xarcdev.ev[]`: a `struct input_event` without its timestamp
(`__u16 type`, `__u16 code`, `__s32 value`). -/
structure InputEvent where
  type : Nat
  code : Nat
  value : Int
  deriving DecidableEq, Repr

/-- A call made on one of the virtual devices, in program order. -/
inductive Action where
  /-- The call `uinput_kbd_write(&uinp_kbd, code, value, evtype)`. -/
  | kbdWrite (code : Nat) (value : Int) (evtype : Nat)
  /-- The call `uinput_kbd_sleep()`. -/
  | kbdSleep
  /-- The call `uinput_gpad_write(&uinp_gpads[gpad], code, value, evtype)`. -/
  | gpadWrite (gpad : Nat) (code : Nat) (value : Int) (evtype : Nat)
  /-- The call `uinput_gpad_sleep()`. -/
  | gpadSleep
  deriving DecidableEq, Repr

/-- The array `char keyStates[256]`. -/
abbrev KeyStates := Fin 256 → Int

/-- The locals of `main` that survive from one event to the next. -/
structure State where
  keyStates : KeyStates
  combo : Int

/-- Conversion of an `int` to `char` on assignment: the value modulo 2^8.
Only whether an entry is zero is ever read back, which is the same for the
signed and the unsigned reading of the byte. -/
def toChar (v : Int) : Int := v % 256

/-- The assignment `keyStates[code] = value` for an index inside the array. -/
def setKey (ks : KeyStates) (code : Fin 256) (value : Int) : KeyStates :=
  fun i => if i = code then toChar value else ks i

/-- The entry `keyStates[KEY_3]`. -/
def key3 (ks : KeyStates) : Int := ks ⟨KEY_3, by decide⟩

/-- The entry `keyStates[KEY_4]`. -/
def key4 (ks : KeyStates) : Int := ks ⟨KEY_4, by decide⟩

/-- The entry `keyStates[code]`, read as 0 outside the array; used only to
state properties, the program reads no index but KEY_3 and KEY_4. -/
def tracked (ks : KeyStates) (code : Nat) : Int :=
  if h : code < 256 then ks ⟨code, h⟩ else 0

/-! ## Output helpers -/

/-- The C expression `value > 0` as an `int`. -/
def isDown (value : Int) : Int := if value > 0 then 1 else 0

/-- The C expression `value == 0 ? 2 : dir`. -/
def axisValue (value : Int) (dir : Int) : Int := if value = 0 then 2 else dir

/-- Function `x2j_write`: in MAME mode the pressed key goes to the keyboard,
otherwise the mapped key goes to gamepad `gpad`; both receive `option` and
`eventtype` as passed by the caller. -/
def x2j_write (mame : Bool) (keypressed mappedkey : Nat) (option : Int)
    (eventtype gpad : Nat) : List Action :=
  if mame then [Action.kbdWrite keypressed option eventtype]
  else [Action.gpadWrite gpad mappedkey option eventtype]

/-- Function `x2j_write_keyboard`: press, settle delay, release on the keyboard. -/
def x2j_write_keyboard (keytopress : Nat) : List Action :=
  [Action.kbdWrite keytopress 1 EV_KEY, Action.kbdSleep, Action.kbdWrite keytopress 0 EV_KEY]

/-- Function `x2j_write_gpad`: press, settle delay, release on gamepad `gpad`. -/
def x2j_write_gpad (keytopress gpad : Nat) : List Action :=
  [Action.gpadWrite gpad keytopress 1 EV_KEY, Action.gpadSleep,
   Action.gpadWrite gpad keytopress 0 EV_KEY]

/-! ## The event loop -/

/-- The `switch (xarcdev.ev[ctr].code)` of `main`, entered after `keyStates`
has been updated. Returns the new `combo` and the calls made. Both `continue`
and `break` end the processing of the current event. -/
def keySwitch (mame : Bool) (keyStates : KeyStates) (combo : Int) (code : Nat)
    (value : Int) : Int × List Action :=
  /- Player 1 buttons -/
  if code = KEY_LEFTCTRL then (combo, x2j_write mame code BTN_A (isDown value) EV_KEY GPAD1)
  else if code = KEY_LEFTALT then (combo, x2j_write mame code BTN_B (isDown value) EV_KEY GPAD1)
  else if code = KEY_SPACE then (combo, x2j_write mame code BTN_C (isDown value) EV_KEY GPAD1)
  else if code = KEY_LEFTSHIFT then (combo, x2j_write mame code BTN_X (isDown value) EV_KEY GPAD1)
  else if code = KEY_Z then (combo, x2j_write mame code BTN_Y (isDown value) EV_KEY GPAD1)
  else if code = KEY_X then (combo, x2j_write mame code BTN_Z (isDown value) EV_KEY GPAD1)
  else if code = KEY_C then (combo, x2j_write mame code BTN_TL (isDown value) EV_KEY GPAD1)
  else if code = KEY_5 then (combo, x2j_write mame code BTN_TR (isDown value) EV_KEY GPAD1)
  else if code = KEY_1 then
    if key3 keyStates ≠ 0 ∧ value ≠ 0 then (2, x2j_write_keyboard KEY_ESC)
    else if value ≠ 0 then (combo, [])
    else if combo = 0 then (combo, x2j_write_gpad BTN_START GPAD1)
    else (combo - 1, [])
  else if code = KEY_3 then
    if value ≠ 0 then (combo, [])
    else if combo = 0 then (combo, x2j_write_gpad BTN_SELECT GPAD1)
    else (combo - 1, [])
  /- Player 1 joystick -/
  else if code = KEY_KP4 ∨ code = KEY_LEFT then
    (combo, x2j_write mame code ABS_X (axisValue value 0) EV_ABS GPAD1)
  else if code = KEY_KP6 ∨ code = KEY_RIGHT then
    (combo, x2j_write mame code ABS_X (axisValue value 4) EV_ABS GPAD1)
  else if code = KEY_KP8 ∨ code = KEY_UP then
    (combo, x2j_write mame code ABS_Y (axisValue value 0) EV_ABS GPAD1)
  else if code = KEY_KP2 ∨ code = KEY_DOWN then
    (combo, x2j_write mame code ABS_Y (axisValue value 4) EV_ABS GPAD1)
  /- Player 2 buttons -/
  else if code = KEY_A then (combo, x2j_write mame code BTN_A (isDown value) EV_KEY GPAD2)
  else if code = KEY_S then (combo, x2j_write mame code BTN_B (isDown value) EV_KEY GPAD2)
  else if code = KEY_Q then (combo, x2j_write mame code BTN_C (isDown value) EV_KEY GPAD2)
  else if code = KEY_W then (combo, x2j_write mame code BTN_X (isDown value) EV_KEY GPAD2)
  else if code = KEY_E then (combo, x2j_write mame code BTN_Y (isDown value) EV_KEY GPAD2)
  else if code = KEY_LEFTBRACE then
    (combo, x2j_write mame code BTN_Z (isDown value) EV_KEY GPAD2)
  else if code = KEY_RIGHTBRACE then
    (combo, x2j_write mame code BTN_TL (isDown value) EV_KEY GPAD2)
  else if code = KEY_6 then (combo, x2j_write mame code BTN_TR (isDown value) EV_KEY GPAD2)
  else if code = KEY_2 then
    if key4 keyStates ≠ 0 ∧ value ≠ 0 then (2, x2j_write_keyboard KEY_ESC)
    else if value ≠ 0 then (combo, [])
    else if combo = 0 then (combo, x2j_write_gpad BTN_START GPAD2)
    else (combo - 1, [])
  else if code = KEY_4 then
    if value ≠ 0 then (combo, [])
    else if combo = 0 then (combo, x2j_write_gpad BTN_SELECT GPAD2)
    else (combo - 1, [])
  /- Player 2 joystick -/
  else if code = KEY_D then (combo, x2j_write mame code ABS_X (axisValue value 0) EV_ABS GPAD2)
  else if code = KEY_G then (combo, x2j_write mame code ABS_X (axisValue value 4) EV_ABS GPAD2)
  else if code = KEY_R then (combo, x2j_write mame code ABS_Y (axisValue value 0) EV_ABS GPAD2)
  else if code = KEY_F then (combo, x2j_write mame code ABS_Y (axisValue value 4) EV_ABS GPAD2)
  else (combo, [])

/-- One iteration of the `for` loop of `main` on the event `ev`, with the
value `mame` has while the event is processed. The result is `none` when the
store into `keyStates` falls outside the array. -/
def processEvent (mame : Bool) (s : State) (ev : InputEvent) : Option (State × List Action) :=
  if ev.type = 0 then some (s, [])
  else if ev.type = EV_MSC then some (s, [])
  else if EV_KEY = ev.type then
    if h : ev.code < 256 then
      let keyStates := setKey s.keyStates ⟨ev.code, h⟩ ev.value
      let r := keySwitch mame keyStates s.combo ev.code ev.value
      some (⟨keyStates, r.1⟩, r.2)
    else none
  else some (s, [])

/-- The `for` loop of `main` over a sequence of events, each paired with the
value of `mame` in force when it is processed; the calls are concatenated in
order. -/
def processEvents : State → List (Bool × InputEvent) → Option (State × List Action)
  | s, [] => some (s, [])
  | s, (mame, ev) :: rest =>
    match processEvent mame s ev with
    | none => none
    | some (s1, out1) =>
      match processEvents s1 rest with
      | none => none
      | some (s2, out2) => some (s2, out1 ++ out2)

/-! ## Observations on the calls made -/

/-- Holds for a write to the keyboard sink. -/
def Action.isKbdWrite : Action → Bool
  | Action.kbdWrite _ _ _ => true
  | _ => false

/-- Holds for a write to a gamepad sink. -/
def Action.isGpadWrite : Action → Bool
  | Action.gpadWrite _ _ _ _ => true
  | _ => false

/-- The writes among the calls made (the settle delays are dropped). -/
def writes (acts : List Action) : List Action :=
  acts.filter (fun a => a.isKbdWrite || a.isGpadWrite)

/-- The gamepad writes among the calls made. -/
def gpadWrites (acts : List Action) : List Action :=
  acts.filter Action.isGpadWrite

/-- The keyboard writes among the calls made. -/
def kbdWrites (acts : List Action) : List Action :=
  acts.filter Action.isKbdWrite

/-- A KEY event. -/
def keyEvent (code : Nat) (value : Int) : InputEvent := ⟨EV_KEY, code, value⟩

/-- A state with every tracked key released except the listed codes, which
are tracked with value 1. -/
def stateWith (held : List Nat) (combo : Int) : State :=
  ⟨fun i => if i.val ∈ held then 1 else 0, combo⟩

/-- The part of a result the sinks and the chord logic expose: the counter
`combo` and the calls made. -/
def outcome (r : Option (State × List Action)) : Option (Int × List Action) :=
  r.map (fun p => (p.1.combo, p.2))

/-- Holds for a keyboard write whose code is KEY_ESC. -/
def Action.isEscWrite : Action → Bool
  | Action.kbdWrite code _ _ => code == KEY_ESC
  | _ => false

/-- The keyboard writes of KEY_ESC among the calls made. -/
def escWrites (acts : List Action) : List Action :=
  acts.filter Action.isEscWrite

/-- Holds for every call except a gamepad write to an index other than `idx`. -/
def Action.onlyGpad (idx : Nat) : Action → Bool
  | Action.gpadWrite g _ _ _ => g == idx
  | _ => true

/-- The case labels of the switch under the heading "Player 1 controls", in
source order. -/
def player1Codes : List Nat :=
  [KEY_LEFTCTRL, KEY_LEFTALT, KEY_SPACE, KEY_LEFTSHIFT, KEY_Z, KEY_X, KEY_C, KEY_5,
   KEY_1, KEY_3, KEY_KP4, KEY_LEFT, KEY_KP6, KEY_RIGHT, KEY_KP8, KEY_UP, KEY_KP2, KEY_DOWN]

/-- The case labels of the switch under the heading "Player 2 controls", in
source order. -/
def player2Codes : List Nat :=
  [KEY_A, KEY_S, KEY_Q, KEY_W, KEY_E, KEY_LEFTBRACE, KEY_RIGHTBRACE, KEY_6,
   KEY_2, KEY_4, KEY_D, KEY_G, KEY_R, KEY_F]

/-- All case labels of the switch; every other code takes the `default` branch. -/
def switchCodes : List Nat := player1Codes ++ player2Codes

/-- The locals of `main` when the read loop is entered: `combo` is 0 and
`keyStates`, which has no initialiser, holds whatever the stack held. -/
def startState (stack : KeyStates) : State := ⟨stack, 0⟩

/-- The number of keys among KEY_1, KEY_2, KEY_3, KEY_4 whose entry in
`keyStates` is non-zero. -/
def heldChordKeys (ks : KeyStates) : Nat :=
  (if tracked ks KEY_1 ≠ 0 then 1 else 0) + (if tracked ks KEY_2 ≠ 0 then 1 else 0) +
  (if tracked ks KEY_3 ≠ 0 then 1 else 0) + (if tracked ks KEY_4 ≠ 0 then 1 else 0)

/-- The calls of `n` Escape taps in a row. -/
def escapeTaps : Nat → List Action
  | 0 => []
  | n + 1 => x2j_write_keyboard KEY_ESC ++ escapeTaps n

/-! ## Shutdown -/

/-- A call that releases a device. -/
inductive Release where
  /-- The call `input_xarcade_close(&xarcdev)`. -/
  | inputClose
  /-- The call `uinput_gpad_close(&uinp_gpads[gpad])`. -/
  | gpadClose (gpad : Nat)
  /-- The call `uinput_kbd_close(&uinp_kbd)`. -/
  | kbdClose
  deriving DecidableEq, Repr

/-- Function `teardown`, without its two log lines: it closes the input
device, the two gamepads and the keyboard, whatever happened before. -/
def teardown : List Release :=
  [Release.inputClose, Release.gpadClose 0, Release.gpadClose 1, Release.kbdClose]

/-- Function `signal_handler` up to its `exit(EXIT_SUCCESS)`: it restores the
default disposition of `signum` only, logs, and calls `teardown`. -/
def signal_handler (_signum : Nat) : List Release := teardown

/-- The end of `main` once the read loop is left on `rd < 0`: `teardown()`
and `return EXIT_SUCCESS`. -/
def mainExit : List Release := teardown

/-- The releases made by `n` invocations of `teardown` in sequence. -/
def teardownTimes : Nat → List Release
  | 0 => []
  | n + 1 => teardown ++ teardownTimes n

/-! ## Basic facts about the embedding -/

theorem key3_setKey (ks : KeyStates) (c : Fin 256) (v : Int) (hc : c.val ≠ KEY_3) :
    key3 (setKey ks c v) = key3 ks := by
  unfold key3 setKey
  have hne : (⟨KEY_3, by decide⟩ : Fin 256) ≠ c := fun h => hc (by rw [← h])
  simp [hne]

theorem key4_setKey (ks : KeyStates) (c : Fin 256) (v : Int) (hc : c.val ≠ KEY_4) :
    key4 (setKey ks c v) = key4 ks := by
  unfold key4 setKey
  have hne : (⟨KEY_4, by decide⟩ : Fin 256) ≠ c := fun h => hc (by rw [← h])
  simp [hne]

theorem processEvent_key (mame : Bool) (s : State) (code : Nat) (v : Int) (h : code < 256) :
    processEvent mame s (keyEvent code v) =
      some (⟨setKey s.keyStates ⟨code, h⟩ v,
              (keySwitch mame (setKey s.keyStates ⟨code, h⟩ v) s.combo code v).1⟩,
            (keySwitch mame (setKey s.keyStates ⟨code, h⟩ v) s.combo code v).2) := by
  simp [processEvent, keyEvent, EV_KEY, EV_MSC, h]

/-- The case KEY_1 of the switch. -/
theorem keySwitch_KEY_1 (mame : Bool) (ks : KeyStates) (combo v : Int) :
    keySwitch mame ks combo KEY_1 v =
      if key3 ks ≠ 0 ∧ v ≠ 0 then (2, x2j_write_keyboard KEY_ESC)
      else if v ≠ 0 then (combo, [])
      else if combo = 0 then (combo, x2j_write_gpad BTN_START GPAD1)
      else (combo - 1, []) := rfl

/-- The case KEY_3 of the switch. -/
theorem keySwitch_KEY_3 (mame : Bool) (ks : KeyStates) (combo v : Int) :
    keySwitch mame ks combo KEY_3 v =
      if v ≠ 0 then (combo, [])
      else if combo = 0 then (combo, x2j_write_gpad BTN_SELECT GPAD1)
      else (combo - 1, []) := rfl

/-- The case KEY_2 of the switch. -/
theorem keySwitch_KEY_2 (mame : Bool) (ks : KeyStates) (combo v : Int) :
    keySwitch mame ks combo KEY_2 v =
      if key4 ks ≠ 0 ∧ v ≠ 0 then (2, x2j_write_keyboard KEY_ESC)
      else if v ≠ 0 then (combo, [])
      else if combo = 0 then (combo, x2j_write_gpad BTN_START GPAD2)
      else (combo - 1, []) := rfl

/-- The case KEY_4 of the switch. -/
theorem keySwitch_KEY_4 (mame : Bool) (ks : KeyStates) (combo v : Int) :
    keySwitch mame ks combo KEY_4 v =
      if v ≠ 0 then (combo, [])
      else if combo = 0 then (combo, x2j_write_gpad BTN_SELECT GPAD2)
      else (combo - 1, []) := rfl

/-- Processing a first event that has a result, then the rest. -/
theorem outcome_cons (m : Bool) (s s1 : State) (ev : InputEvent) (o1 : List Action)
    (rest : List (Bool × InputEvent)) (h : processEvent m s ev = some (s1, o1)) :
    outcome (processEvents s ((m, ev) :: rest)) =
      (outcome (processEvents s1 rest)).map (fun r => (r.1, o1 ++ r.2)) := by
  simp only [processEvents, h, outcome]
  cases processEvents s1 rest <;> rfl

/-- Processing no event makes no call and keeps the counter. -/
theorem outcome_nil (s : State) : outcome (processEvents s []) = some (s.combo, []) := rfl

/-- A release of one of the four chord keys: the tap of its button when `combo`
is 0, otherwise no call and `combo` decremented. -/
theorem release_chord_key (mame : Bool) (s : State) (c btn gpad : Nat)
    (hc : (c, btn, gpad) ∈ [(KEY_1, BTN_START, GPAD1), (KEY_3, BTN_SELECT, GPAD1),
      (KEY_2, BTN_START, GPAD2), (KEY_4, BTN_SELECT, GPAD2)]) :
    ∃ s1, processEvent mame s (keyEvent c 0) =
        some (s1, if s.combo = 0 then x2j_write_gpad btn gpad else []) ∧
      s1.combo = (if s.combo = 0 then 0 else s.combo - 1) ∧
      key3 s1.keyStates = (if c = KEY_3 then 0 else key3 s.keyStates) ∧
      key4 s1.keyStates = (if c = KEY_4 then 0 else key4 s.keyStates) := by
  simp only [List.mem_cons, Prod.mk.injEq, List.mem_singleton, List.not_mem_nil, or_false] at hc
  obtain h | h | h | h := hc <;> obtain ⟨rfl, rfl, rfl⟩ := h
  · refine ⟨⟨setKey s.keyStates ⟨KEY_1, by decide⟩ 0, if s.combo = 0 then 0 else s.combo - 1⟩,
      ?_, rfl, ?_, ?_⟩
    · rw [processEvent_key mame s KEY_1 0 (by decide), keySwitch_KEY_1]
      by_cases h : s.combo = 0 <;> simp [h]
    · rw [key3_setKey _ _ _ (by decide)]; simp [KEY_1, KEY_3]
    · rw [key4_setKey _ _ _ (by decide)]; simp [KEY_1, KEY_4]
  · refine ⟨⟨setKey s.keyStates ⟨KEY_3, by decide⟩ 0, if s.combo = 0 then 0 else s.combo - 1⟩,
      ?_, rfl, ?_, ?_⟩
    · rw [processEvent_key mame s KEY_3 0 (by decide), keySwitch_KEY_3]
      by_cases h : s.combo = 0 <;> simp [h]
    · simp [key3, setKey, toChar]
    · rw [key4_setKey _ _ _ (by decide)]; simp [KEY_3, KEY_4]
  · refine ⟨⟨setKey s.keyStates ⟨KEY_2, by decide⟩ 0, if s.combo = 0 then 0 else s.combo - 1⟩,
      ?_, rfl, ?_, ?_⟩
    · rw [processEvent_key mame s KEY_2 0 (by decide), keySwitch_KEY_2]
      by_cases h : s.combo = 0 <;> simp [h]
    · rw [key3_setKey _ _ _ (by decide)]; simp [KEY_2, KEY_3]
    · rw [key4_setKey _ _ _ (by decide)]; simp [KEY_2, KEY_4]
  · refine ⟨⟨setKey s.keyStates ⟨KEY_4, by decide⟩ 0, if s.combo = 0 then 0 else s.combo - 1⟩,
      ?_, rfl, ?_, ?_⟩
    · rw [processEvent_key mame s KEY_4 0 (by decide), keySwitch_KEY_4]
      by_cases h : s.combo = 0 <;> simp [h]
    · rw [key3_setKey _ _ _ (by decide)]; simp [KEY_4, KEY_3]
    · simp [key4, setKey, toChar]

/-- A KEY_1 event with a non-zero value: the Escape tap and `combo` set to 2
when `keyStates[KEY_3]` is non-zero, otherwise nothing. -/
theorem press_KEY_1 (mame : Bool) (s : State) (v : Int) (hv : v ≠ 0) :
    ∃ s1, processEvent mame s (keyEvent KEY_1 v) =
        some (s1, if key3 s.keyStates ≠ 0 then x2j_write_keyboard KEY_ESC else []) ∧
      s1.combo = (if key3 s.keyStates ≠ 0 then 2 else s.combo) ∧
      key3 s1.keyStates = key3 s.keyStates ∧ key4 s1.keyStates = key4 s.keyStates := by
  refine ⟨⟨setKey s.keyStates ⟨KEY_1, by decide⟩ v,
    if key3 s.keyStates ≠ 0 then 2 else s.combo⟩, ?_, rfl, ?_, ?_⟩
  · rw [processEvent_key mame s KEY_1 v (by decide), keySwitch_KEY_1,
      key3_setKey _ _ _ (by decide)]
    by_cases h : key3 s.keyStates = 0 <;> simp [h, hv]
  · exact key3_setKey _ _ _ (by decide)
  · exact key4_setKey _ _ _ (by decide)

/-- A KEY_2 event with a non-zero value: the Escape tap and `combo` set to 2
when `keyStates[KEY_4]` is non-zero, otherwise nothing. -/
theorem press_KEY_2 (mame : Bool) (s : State) (v : Int) (hv : v ≠ 0) :
    ∃ s1, processEvent mame s (keyEvent KEY_2 v) =
        some (s1, if key4 s.keyStates ≠ 0 then x2j_write_keyboard KEY_ESC else []) ∧
      s1.combo = (if key4 s.keyStates ≠ 0 then 2 else s.combo) ∧
      key3 s1.keyStates = key3 s.keyStates ∧ key4 s1.keyStates = key4 s.keyStates := by
  refine ⟨⟨setKey s.keyStates ⟨KEY_2, by decide⟩ v,
    if key4 s.keyStates ≠ 0 then 2 else s.combo⟩, ?_, rfl, ?_, ?_⟩
  · rw [processEvent_key mame s KEY_2 v (by decide), keySwitch_KEY_2,
      key4_setKey _ _ _ (by decide)]
    by_cases h : key4 s.keyStates = 0 <;> simp [h, hv]
  · exact key3_setKey _ _ _ (by decide)
  · exact key4_setKey _ _ _ (by decide)

/-- A KEY_3 event with a non-zero value makes no call and keeps `combo`. -/
theorem press_KEY_3 (mame : Bool) (s : State) (v : Int) (hv : v ≠ 0) :
    ∃ s1, processEvent mame s (keyEvent KEY_3 v) = some (s1, []) ∧ s1.combo = s.combo ∧
      key3 s1.keyStates = toChar v ∧ key4 s1.keyStates = key4 s.keyStates := by
  refine ⟨⟨setKey s.keyStates ⟨KEY_3, by decide⟩ v, s.combo⟩, ?_, rfl, ?_, ?_⟩
  · rw [processEvent_key mame s KEY_3 v (by decide), keySwitch_KEY_3]
    simp [hv]
  · simp [key3, setKey]
  · exact key4_setKey _ _ _ (by decide)

/-- A KEY_4 event with a non-zero value makes no call and keeps `combo`. -/
theorem press_KEY_4 (mame : Bool) (s : State) (v : Int) (hv : v ≠ 0) :
    ∃ s1, processEvent mame s (keyEvent KEY_4 v) = some (s1, []) ∧ s1.combo = s.combo ∧
      key3 s1.keyStates = key3 s.keyStates ∧ key4 s1.keyStates = toChar v := by
  refine ⟨⟨setKey s.keyStates ⟨KEY_4, by decide⟩ v, s.combo⟩, ?_, rfl, ?_, ?_⟩
  · rw [processEvent_key mame s KEY_4 v (by decide), keySwitch_KEY_4]
    simp [hv]
  · exact key3_setKey _ _ _ (by decide)
  · simp [key4, setKey]

/-- A release of KEY_1 or KEY_3 while `combo` is not 0 is swallowed. -/
theorem release_swallowed_p1 (mame : Bool) (s : State) (c : Nat) (hc : c = KEY_1 ∨ c = KEY_3)
    (h : s.combo ≠ 0) :
    ∃ s1, processEvent mame s (keyEvent c 0) = some (s1, []) ∧ s1.combo = s.combo - 1 := by
  rcases hc with rfl | rfl
  · obtain ⟨s1, h1, h2, _⟩ := release_chord_key mame s KEY_1 BTN_START GPAD1 (by simp)
    exact ⟨s1, by simpa [h] using h1, by simpa [h] using h2⟩
  · obtain ⟨s1, h1, h2, _⟩ := release_chord_key mame s KEY_3 BTN_SELECT GPAD1 (by simp)
    exact ⟨s1, by simpa [h] using h1, by simpa [h] using h2⟩

/-- A release of KEY_2 or KEY_4 while `combo` is not 0 is swallowed. -/
theorem release_swallowed_p2 (mame : Bool) (s : State) (c : Nat) (hc : c = KEY_2 ∨ c = KEY_4)
    (h : s.combo ≠ 0) :
    ∃ s1, processEvent mame s (keyEvent c 0) = some (s1, []) ∧ s1.combo = s.combo - 1 := by
  rcases hc with rfl | rfl
  · obtain ⟨s1, h1, h2, _⟩ := release_chord_key mame s KEY_2 BTN_START GPAD2 (by simp)
    exact ⟨s1, by simpa [h] using h1, by simpa [h] using h2⟩
  · obtain ⟨s1, h1, h2, _⟩ := release_chord_key mame s KEY_4 BTN_SELECT GPAD2 (by simp)
    exact ⟨s1, by simpa [h] using h1, by simpa [h] using h2⟩

/-- A release of a chord key while `combo` is 0 emits the tap of its button. -/
theorem release_tap (mame : Bool) (s : State) (c btn gpad : Nat)
    (hc : (c, btn, gpad) ∈ [(KEY_1, BTN_START, GPAD1), (KEY_3, BTN_SELECT, GPAD1),
      (KEY_2, BTN_START, GPAD2), (KEY_4, BTN_SELECT, GPAD2)]) (h : s.combo = 0) :
    ∃ s1, processEvent mame s (keyEvent c 0) =
      some (s1, [Action.gpadWrite gpad btn 1 EV_KEY, Action.gpadSleep,
        Action.gpadWrite gpad btn 0 EV_KEY]) ∧ s1.combo = 0 := by
  obtain ⟨s1, h1, h2, _⟩ := release_chord_key mame s c btn gpad hc
  exact ⟨s1, by simpa [h, x2j_write_gpad] using h1, by simpa [h] using h2⟩

/-- The observable part of a step whose result is known. -/
theorem outcome_of (r : Option (State × List Action)) (s1 : State) (o : List Action) (c : Int)
    (h : r = some (s1, o)) (hc : s1.combo = c) : outcome r = some (c, o) := by
  subst h; simp [outcome, hc]

/-- A button key: one call of `x2j_write` with the mapped button and the
value `value > 0`, type EV_KEY; `combo` is kept. -/
theorem button_key (mame : Bool) (s : State) (v : Int) (e : Nat × Nat × Nat)
    (h : e ∈
      [(KEY_LEFTCTRL, BTN_A, GPAD1), (KEY_LEFTALT, BTN_B, GPAD1), (KEY_SPACE, BTN_C, GPAD1),
      (KEY_LEFTSHIFT, BTN_X, GPAD1), (KEY_Z, BTN_Y, GPAD1), (KEY_X, BTN_Z, GPAD1),
      (KEY_C, BTN_TL, GPAD1), (KEY_5, BTN_TR, GPAD1),
      (KEY_A, BTN_A, GPAD2), (KEY_S, BTN_B, GPAD2), (KEY_Q, BTN_C, GPAD2),
      (KEY_W, BTN_X, GPAD2), (KEY_E, BTN_Y, GPAD2), (KEY_LEFTBRACE, BTN_Z, GPAD2),
      (KEY_RIGHTBRACE, BTN_TL, GPAD2), (KEY_6, BTN_TR, GPAD2)]) :
    ∃ s1, processEvent mame s (keyEvent e.1 v) =
        some (s1, x2j_write mame e.1 e.2.1 (isDown v) EV_KEY e.2.2) ∧ s1.combo = s.combo := by
  fin_cases h <;> exact ⟨_, rfl, rfl⟩

/-- A direction key: one call of `x2j_write` with the axis and the value
`value == 0 ? 2 : dir`, type EV_ABS; `combo` is kept. -/
theorem axis_key (mame : Bool) (s : State) (v : Int) (e : Nat × Nat × Nat × Int)
    (h : e ∈
      [(KEY_LEFT, ABS_X, GPAD1, 0), (KEY_KP4, ABS_X, GPAD1, 0), (KEY_UP, ABS_Y, GPAD1, 0),
      (KEY_KP8, ABS_Y, GPAD1, 0), (KEY_D, ABS_X, GPAD2, 0), (KEY_R, ABS_Y, GPAD2, 0),
      (KEY_RIGHT, ABS_X, GPAD1, 4), (KEY_KP6, ABS_X, GPAD1, 4), (KEY_DOWN, ABS_Y, GPAD1, 4),
      (KEY_KP2, ABS_Y, GPAD1, 4), (KEY_G, ABS_X, GPAD2, 4), (KEY_F, ABS_Y, GPAD2, 4)]) :
    ∃ s1, processEvent mame s (keyEvent e.1 v) =
        some (s1, x2j_write mame e.1 e.2.1 (axisValue v e.2.2.2) EV_ABS e.2.2.1) ∧
      s1.combo = s.combo := by
  fin_cases h <;> exact ⟨_, rfl, rfl⟩

/-! ## Chord fire -/

/-- C1: in either runtime mode and from every state, a KEY_1 event with a
non-zero value processed while `keyStates[KEY_3]` is non-zero makes exactly the
calls keyboard write (KEY_ESC, 1, EV_KEY), settle delay, keyboard write
(KEY_ESC, 0, EV_KEY), hence exactly these two writes and no gamepad write, and
sets `combo` to 2; likewise for KEY_2 while `keyStates[KEY_4]` is non-zero. -/
theorem chord_fire (mame : Bool) (s : State) (v : Int) (hv : v ≠ 0) :
    (key3 s.keyStates ≠ 0 →
      processEvent mame s (keyEvent KEY_1 v) =
        some (⟨setKey s.keyStates ⟨KEY_1, by decide⟩ v, 2⟩,
          [Action.kbdWrite KEY_ESC 1 EV_KEY, Action.kbdSleep, Action.kbdWrite KEY_ESC 0 EV_KEY])) ∧
    (key4 s.keyStates ≠ 0 →
      processEvent mame s (keyEvent KEY_2 v) =
        some (⟨setKey s.keyStates ⟨KEY_2, by decide⟩ v, 2⟩,
          [Action.kbdWrite KEY_ESC 1 EV_KEY, Action.kbdSleep, Action.kbdWrite KEY_ESC 0 EV_KEY])) ∧
    writes [Action.kbdWrite KEY_ESC 1 EV_KEY, Action.kbdSleep, Action.kbdWrite KEY_ESC 0 EV_KEY] =
      [Action.kbdWrite KEY_ESC 1 EV_KEY, Action.kbdWrite KEY_ESC 0 EV_KEY] ∧
    gpadWrites
      [Action.kbdWrite KEY_ESC 1 EV_KEY, Action.kbdSleep, Action.kbdWrite KEY_ESC 0 EV_KEY] = [] := by
  refine ⟨fun h3 => ?_, fun h4 => ?_, by decide, by decide⟩
  · rw [processEvent_key mame s KEY_1 v (by decide), keySwitch_KEY_1,
      key3_setKey _ _ _ (by decide), if_pos ⟨h3, hv⟩]
    rfl
  · rw [processEvent_key mame s KEY_2 v (by decide), keySwitch_KEY_2,
      key4_setKey _ _ _ (by decide), if_pos ⟨h4, hv⟩]
    rfl

/-- Witness of `chord_fire`: KEY_1 pressed (value 1) in gamepad mode with only
KEY_3 tracked as pressed and `combo` 0. -/
theorem chord_fire_witness :
    (1 : Int) ≠ 0 ∧ key3 (stateWith [KEY_3] 0).keyStates ≠ 0 ∧
    outcome (processEvent false (stateWith [KEY_3] 0) (keyEvent KEY_1 1)) =
      some (2, [Action.kbdWrite KEY_ESC 1 EV_KEY, Action.kbdSleep,
        Action.kbdWrite KEY_ESC 0 EV_KEY]) := by
  have h3 : key3 (stateWith [KEY_3] 0).keyStates ≠ 0 := by decide
  refine ⟨by decide, h3, ?_⟩
  rw [(chord_fire false (stateWith [KEY_3] 0) 1 (by decide)).1 h3]
  rfl

/-! ## Chord suppression -/

/-- C2: from every state with `combo` = 2, two releases, each of KEY_1 or KEY_3
in any order, make no call at all and leave `combo` at 0; a third release of
KEY_1 then makes the BTN_START tap on gamepad index 0, a third release of KEY_3
the BTN_SELECT tap on gamepad index 0. And from every state with
`keyStates[KEY_3]` non-zero, the batch press KEY_1, press KEY_3, release KEY_1,
release KEY_3 makes the calls of one Escape tap and nothing else. All of it in
any runtime mode at each event. -/
theorem chord_suppression (s t : State) (m1 m2 m3 m4 : Bool) (c1 c2 : Nat)
    (h1 : c1 = KEY_1 ∨ c1 = KEY_3) (h2 : c2 = KEY_1 ∨ c2 = KEY_3) (hs : s.combo = 2)
    (ht : key3 t.keyStates ≠ 0) :
    outcome (processEvents s [(m1, keyEvent c1 0), (m2, keyEvent c2 0)]) = some (0, []) ∧
    outcome (processEvents s
        [(m1, keyEvent c1 0), (m2, keyEvent c2 0), (m3, keyEvent KEY_1 0)]) =
      some (0, [Action.gpadWrite 0 BTN_START 1 EV_KEY, Action.gpadSleep,
        Action.gpadWrite 0 BTN_START 0 EV_KEY]) ∧
    outcome (processEvents s
        [(m1, keyEvent c1 0), (m2, keyEvent c2 0), (m3, keyEvent KEY_3 0)]) =
      some (0, [Action.gpadWrite 0 BTN_SELECT 1 EV_KEY, Action.gpadSleep,
        Action.gpadWrite 0 BTN_SELECT 0 EV_KEY]) ∧
    outcome (processEvents t
        [(m1, keyEvent KEY_1 1), (m2, keyEvent KEY_3 1), (m3, keyEvent KEY_1 0),
         (m4, keyEvent KEY_3 0)]) =
      some (0, [Action.kbdWrite KEY_ESC 1 EV_KEY, Action.kbdSleep,
        Action.kbdWrite KEY_ESC 0 EV_KEY]) := by
  obtain ⟨s1, e1, k1⟩ := release_swallowed_p1 m1 s c1 h1 (by rw [hs]; decide)
  obtain ⟨s2, e2, k2⟩ := release_swallowed_p1 m2 s1 c2 h2 (by rw [k1, hs]; decide)
  have k2z : s2.combo = 0 := by rw [k2, k1, hs]; rfl
  obtain ⟨s3, e3, k3⟩ := release_tap m3 s2 KEY_1 BTN_START GPAD1 (by simp) k2z
  obtain ⟨s4, e4, k4⟩ := release_tap m3 s2 KEY_3 BTN_SELECT GPAD1 (by simp) k2z
  obtain ⟨t1, f1, g1, _⟩ := press_KEY_1 m1 t 1 (by decide)
  rw [if_pos ht] at f1 g1
  obtain ⟨t2, f2, g2, _⟩ := press_KEY_3 m2 t1 1 (by decide)
  obtain ⟨t3, f3, g3⟩ := release_swallowed_p1 m3 t2 KEY_1 (Or.inl rfl) (by rw [g2, g1]; decide)
  obtain ⟨t4, f4, g4⟩ := release_swallowed_p1 m4 t3 KEY_3 (Or.inr rfl)
    (by rw [g3, g2, g1]; decide)
  have g4z : t4.combo = 0 := by rw [g4, g3, g2, g1]; rfl
  refine ⟨?_, ?_, ?_, ?_⟩
  · rw [outcome_cons _ _ _ _ _ _ e1, outcome_cons _ _ _ _ _ _ e2, outcome_nil, k2z]; rfl
  · rw [outcome_cons _ _ _ _ _ _ e1, outcome_cons _ _ _ _ _ _ e2, outcome_cons _ _ _ _ _ _ e3,
      outcome_nil, k3]; rfl
  · rw [outcome_cons _ _ _ _ _ _ e1, outcome_cons _ _ _ _ _ _ e2, outcome_cons _ _ _ _ _ _ e4,
      outcome_nil, k4]; rfl
  · rw [outcome_cons _ _ _ _ _ _ f1, outcome_cons _ _ _ _ _ _ f2, outcome_cons _ _ _ _ _ _ f3,
      outcome_cons _ _ _ _ _ _ f4, outcome_nil, g4z]; rfl

/-- Witness of `chord_suppression`: gamepad mode throughout, releases of KEY_3
then KEY_1 from the state with KEY_1 and KEY_3 tracked as pressed and `combo` 2. -/
theorem chord_suppression_witness :
    (KEY_3 = KEY_1 ∨ KEY_3 = KEY_3) ∧ (KEY_1 = KEY_1 ∨ KEY_1 = KEY_3) ∧
    (stateWith [KEY_1, KEY_3] 2).combo = 2 ∧ key3 (stateWith [KEY_3] 0).keyStates ≠ 0 ∧
    outcome (processEvents (stateWith [KEY_1, KEY_3] 2)
        [(false, keyEvent KEY_3 0), (false, keyEvent KEY_1 0), (false, keyEvent KEY_1 0)]) =
      some (0, [Action.gpadWrite 0 BTN_START 1 EV_KEY, Action.gpadSleep,
        Action.gpadWrite 0 BTN_START 0 EV_KEY]) :=
  ⟨Or.inr rfl, Or.inl rfl, rfl, by decide,
    (chord_suppression (stateWith [KEY_1, KEY_3] 2) (stateWith [KEY_3] 0) false false false false
      KEY_3 KEY_1 (Or.inr rfl) (Or.inl rfl) rfl (by decide)).2.1⟩

/-! ## Press of the second member of a pair -/

/-- C3 (the code at the failing inputs): with KEY_1 tracked as pressed, KEY_3
released and `combo` 0, a press of KEY_3 makes no call and leaves `combo` at 0
in both modes, so no Escape tap is emitted; likewise a press of KEY_4 with
KEY_2 tracked as pressed. -/
theorem press_second_member_no_escape :
    outcome (processEvent false (stateWith [KEY_1] 0) (keyEvent KEY_3 1)) = some (0, []) ∧
    outcome (processEvent true (stateWith [KEY_1] 0) (keyEvent KEY_3 1)) = some (0, []) ∧
    outcome (processEvent false (stateWith [KEY_2] 0) (keyEvent KEY_4 1)) = some (0, []) ∧
    outcome (processEvent true (stateWith [KEY_2] 0) (keyEvent KEY_4 1)) = some (0, []) ∧
    tracked (stateWith [KEY_1] 0).keyStates KEY_1 ≠ 0 ∧
    tracked (stateWith [KEY_2] 0).keyStates KEY_2 ≠ 0 := by
  decide

/-! ## Mapping in gamepad mode -/

/-- C4: in gamepad mode, from every state, a KEY event (code, v) on one of the
sixteen button keys makes exactly one call: a write to that player's gamepad
of (B, 1 if v > 0 else 0, EV_KEY) with B the mapped button, and `combo` is
unchanged; hence press then release of KEY_LEFTCTRL write BTN_A = 1 then
BTN_A = 0 to gamepad index 0. -/
theorem button_mapping (s : State) (v : Int) (code btn gpad : Nat)
    (h : (code, btn, gpad) ∈
      [(KEY_LEFTCTRL, BTN_A, GPAD1), (KEY_LEFTALT, BTN_B, GPAD1), (KEY_SPACE, BTN_C, GPAD1),
      (KEY_LEFTSHIFT, BTN_X, GPAD1), (KEY_Z, BTN_Y, GPAD1), (KEY_X, BTN_Z, GPAD1),
      (KEY_C, BTN_TL, GPAD1), (KEY_5, BTN_TR, GPAD1),
      (KEY_A, BTN_A, GPAD2), (KEY_S, BTN_B, GPAD2), (KEY_Q, BTN_C, GPAD2),
      (KEY_W, BTN_X, GPAD2), (KEY_E, BTN_Y, GPAD2), (KEY_LEFTBRACE, BTN_Z, GPAD2),
      (KEY_RIGHTBRACE, BTN_TL, GPAD2), (KEY_6, BTN_TR, GPAD2)]) :
    outcome (processEvent false s (keyEvent code v)) =
      some (s.combo, [Action.gpadWrite gpad btn (if v > 0 then 1 else 0) EV_KEY]) ∧
    outcome (processEvents s
        [(false, keyEvent KEY_LEFTCTRL 1), (false, keyEvent KEY_LEFTCTRL 0)]) =
      some (s.combo, [Action.gpadWrite 0 BTN_A 1 EV_KEY, Action.gpadWrite 0 BTN_A 0 EV_KEY]) := by
  constructor
  · obtain ⟨s1, e1, k1⟩ := button_key false s v (code, btn, gpad) h
    exact outcome_of _ s1 _ _ e1 k1
  · rfl

/-- Witness of `button_mapping`: KEY_W (player 2, BTN_X) with the repeat value 2. -/
theorem button_mapping_witness :
    outcome (processEvent false (stateWith [] 0) (keyEvent KEY_W 2)) =
      some (0, [Action.gpadWrite 1 BTN_X 1 EV_KEY]) :=
  (button_mapping (stateWith [] 0) 2 KEY_W BTN_X GPAD2 (by decide)).1

/-- C5: in gamepad mode, from every state, a KEY event (code, v) on a direction
key makes exactly one call: an EV_ABS write to that player's gamepad on ABS_X
(left/right keys) or ABS_Y (up/down keys), with value 2 when v = 0, else 0 for
a left or up key and 4 for a right or down key; `combo` is unchanged. Hence a
press (any non-zero value) then a release of a left key write 0 then 2 on
ABS_X. -/
theorem axis_encoding (s : State) (v : Int) (code axis gpad : Nat) (dir : Int)
    (h : (code, axis, gpad, dir) ∈
      [(KEY_LEFT, ABS_X, GPAD1, 0), (KEY_KP4, ABS_X, GPAD1, 0), (KEY_UP, ABS_Y, GPAD1, 0),
      (KEY_KP8, ABS_Y, GPAD1, 0), (KEY_D, ABS_X, GPAD2, 0), (KEY_R, ABS_Y, GPAD2, 0),
      (KEY_RIGHT, ABS_X, GPAD1, 4), (KEY_KP6, ABS_X, GPAD1, 4), (KEY_DOWN, ABS_Y, GPAD1, 4),
      (KEY_KP2, ABS_Y, GPAD1, 4), (KEY_G, ABS_X, GPAD2, 4), (KEY_F, ABS_Y, GPAD2, 4)]) :
    outcome (processEvent false s (keyEvent code v)) =
      some (s.combo, [Action.gpadWrite gpad axis (if v = 0 then 2 else dir) EV_ABS]) ∧
    (v ≠ 0 → axis = ABS_X → dir = 0 →
      outcome (processEvents s [(false, keyEvent code v), (false, keyEvent code 0)]) =
        some (s.combo, [Action.gpadWrite gpad ABS_X 0 EV_ABS,
          Action.gpadWrite gpad ABS_X 2 EV_ABS])) := by
  obtain ⟨s1, e1, k1⟩ := axis_key false s v (code, axis, gpad, dir) h
  obtain ⟨s2, e2, k2⟩ := axis_key false s1 0 (code, axis, gpad, dir) h
  constructor
  · exact outcome_of _ s1 _ _ e1 k1
  · intro hv hx hd
    subst hx hd
    rw [outcome_cons _ _ _ _ _ _ e1, outcome_cons _ _ _ _ _ _ e2, outcome_nil, k2, k1]
    simp [x2j_write, axisValue, hv]

/-- Witness of `axis_encoding`: KEY_D (player 2 left) pressed then released. -/
theorem axis_encoding_witness :
    outcome (processEvents (stateWith [] 0) [(false, keyEvent KEY_D 1), (false, keyEvent KEY_D 0)]) =
      some (0, [Action.gpadWrite 1 ABS_X 0 EV_ABS, Action.gpadWrite 1 ABS_X 2 EV_ABS]) :=
  (axis_encoding (stateWith [] 0) 1 KEY_D ABS_X GPAD2 0 (by decide)).2 (by decide) rfl rfl

/-- C6: in gamepad mode, from every state, a release (value 0) of a direction
key makes exactly one call, the write of the center value 2 to the key's axis
on that player's gamepad, and the calls made are the same from any two states
(they do not depend on the tracked state of any key). -/
theorem recenter_on_release (s t : State) (code axis gpad : Nat) (dir : Int)
    (h : (code, axis, gpad, dir) ∈
      [(KEY_LEFT, ABS_X, GPAD1, 0), (KEY_KP4, ABS_X, GPAD1, 0), (KEY_UP, ABS_Y, GPAD1, 0),
      (KEY_KP8, ABS_Y, GPAD1, 0), (KEY_D, ABS_X, GPAD2, 0), (KEY_R, ABS_Y, GPAD2, 0),
      (KEY_RIGHT, ABS_X, GPAD1, 4), (KEY_KP6, ABS_X, GPAD1, 4), (KEY_DOWN, ABS_Y, GPAD1, 4),
      (KEY_KP2, ABS_Y, GPAD1, 4), (KEY_G, ABS_X, GPAD2, 4), (KEY_F, ABS_Y, GPAD2, 4)]) :
    outcome (processEvent false s (keyEvent code 0)) =
      some (s.combo, [Action.gpadWrite gpad axis 2 EV_ABS]) ∧
    (processEvent false s (keyEvent code 0)).map Prod.snd =
      (processEvent false t (keyEvent code 0)).map Prod.snd := by
  obtain ⟨s1, e1, k1⟩ := axis_key false s 0 (code, axis, gpad, dir) h
  obtain ⟨t1, f1, _⟩ := axis_key false t 0 (code, axis, gpad, dir) h
  constructor
  · exact outcome_of _ s1 _ _ e1 k1
  · rw [e1, f1]; rfl

/-- Witness of `recenter_on_release`: KEY_LEFT released while KEY_RIGHT is
still tracked as pressed. -/
theorem recenter_on_release_witness :
    tracked (stateWith [KEY_RIGHT] 0).keyStates KEY_RIGHT ≠ 0 ∧
    outcome (processEvent false (stateWith [KEY_RIGHT] 0) (keyEvent KEY_LEFT 0)) =
      some (0, [Action.gpadWrite 0 ABS_X 2 EV_ABS]) :=
  ⟨by decide,
    (recenter_on_release (stateWith [KEY_RIGHT] 0) (stateWith [] 0) KEY_LEFT ABS_X GPAD1 0
      (by decide)).1⟩

/-! ## MAME mode -/

/-- C7 (the code at the failing inputs): in MAME mode a press of KEY_LEFT is
written to the keyboard as (KEY_LEFT, 0, EV_ABS) and its release as
(KEY_LEFT, 2, EV_ABS), and a repeat (value 2) of KEY_A is written as
(KEY_A, 1, EV_KEY): none of them is the raw event (code, value, EV_KEY). A
press of KEY_A is written as (KEY_A, 1, EV_KEY). -/
theorem mame_passthrough_not_verbatim :
    outcome (processEvent true (stateWith [] 0) (keyEvent KEY_LEFT 1)) =
      some (0, [Action.kbdWrite KEY_LEFT 0 EV_ABS]) ∧
    outcome (processEvent true (stateWith [] 0) (keyEvent KEY_LEFT 1)) ≠
      some (0, [Action.kbdWrite KEY_LEFT 1 EV_KEY]) ∧
    outcome (processEvent true (stateWith [] 0) (keyEvent KEY_LEFT 0)) =
      some (0, [Action.kbdWrite KEY_LEFT 2 EV_ABS]) ∧
    outcome (processEvent true (stateWith [] 0) (keyEvent KEY_A 2)) =
      some (0, [Action.kbdWrite KEY_A 1 EV_KEY]) ∧
    outcome (processEvent true (stateWith [] 0) (keyEvent KEY_A 1)) =
      some (0, [Action.kbdWrite KEY_A 1 EV_KEY]) := by
  decide

/-- C8 (the code at the failing inputs): in MAME mode, with `combo` 0, a
release of KEY_1 makes the BTN_START tap on gamepad index 0 and a release of
KEY_4 the BTN_SELECT tap on gamepad index 1, so writes reach the gamepad sinks
while the mode is MAME. -/
theorem mame_release_writes_gamepad :
    outcome (processEvent true (stateWith [] 0) (keyEvent KEY_1 0)) =
      some (0, [Action.gpadWrite 0 BTN_START 1 EV_KEY, Action.gpadSleep,
        Action.gpadWrite 0 BTN_START 0 EV_KEY]) ∧
    outcome (processEvent true (stateWith [] 0) (keyEvent KEY_4 0)) =
      some (0, [Action.gpadWrite 1 BTN_SELECT 1 EV_KEY, Action.gpadSleep,
        Action.gpadWrite 1 BTN_SELECT 0 EV_KEY]) ∧
    (outcome (processEvent true (stateWith [] 0) (keyEvent KEY_1 0))).map
        (fun r => gpadWrites r.2) =
      some [Action.gpadWrite 0 BTN_START 1 EV_KEY, Action.gpadWrite 0 BTN_START 0 EV_KEY] := by
  decide

/-! ## Start and Select -/

/-- C9: in either mode and from every state, an event with a non-zero value on
KEY_3 or KEY_4, or on KEY_1 (KEY_2) while `keyStates[KEY_3]` (`keyStates[KEY_4]`)
is zero, makes no call and keeps `combo`; a release of KEY_1, KEY_3, KEY_2,
KEY_4 while `combo` is 0 makes exactly the tap (B, 1, EV_KEY), settle delay,
(B, 0, EV_KEY) with B = BTN_START, BTN_SELECT, BTN_START, BTN_SELECT on gamepad
index 0, 0, 1, 1 and leaves `combo` at 0. -/
theorem start_select_tap_on_release (mame : Bool) (s : State) (v : Int) (hv : v ≠ 0) :
    outcome (processEvent mame s (keyEvent KEY_3 v)) = some (s.combo, []) ∧
    outcome (processEvent mame s (keyEvent KEY_4 v)) = some (s.combo, []) ∧
    (key3 s.keyStates = 0 →
      outcome (processEvent mame s (keyEvent KEY_1 v)) = some (s.combo, [])) ∧
    (key4 s.keyStates = 0 →
      outcome (processEvent mame s (keyEvent KEY_2 v)) = some (s.combo, [])) ∧
    (s.combo = 0 →
      outcome (processEvent mame s (keyEvent KEY_1 0)) =
        some (0, [Action.gpadWrite 0 BTN_START 1 EV_KEY, Action.gpadSleep,
          Action.gpadWrite 0 BTN_START 0 EV_KEY]) ∧
      outcome (processEvent mame s (keyEvent KEY_3 0)) =
        some (0, [Action.gpadWrite 0 BTN_SELECT 1 EV_KEY, Action.gpadSleep,
          Action.gpadWrite 0 BTN_SELECT 0 EV_KEY]) ∧
      outcome (processEvent mame s (keyEvent KEY_2 0)) =
        some (0, [Action.gpadWrite 1 BTN_START 1 EV_KEY, Action.gpadSleep,
          Action.gpadWrite 1 BTN_START 0 EV_KEY]) ∧
      outcome (processEvent mame s (keyEvent KEY_4 0)) =
        some (0, [Action.gpadWrite 1 BTN_SELECT 1 EV_KEY, Action.gpadSleep,
          Action.gpadWrite 1 BTN_SELECT 0 EV_KEY])) := by
  refine ⟨?_, ?_, fun h3 => ?_, fun h4 => ?_, fun hz => ⟨?_, ?_, ?_, ?_⟩⟩
  · obtain ⟨s1, e, k, _⟩ := press_KEY_3 mame s v hv
    exact outcome_of _ s1 _ _ e k
  · obtain ⟨s1, e, k, _⟩ := press_KEY_4 mame s v hv
    exact outcome_of _ s1 _ _ e k
  · obtain ⟨s1, e, k, _⟩ := press_KEY_1 mame s v hv
    simp only [h3, ne_eq, not_true_eq_false, if_false] at e k
    exact outcome_of _ s1 _ _ e k
  · obtain ⟨s1, e, k, _⟩ := press_KEY_2 mame s v hv
    simp only [h4, ne_eq, not_true_eq_false, if_false] at e k
    exact outcome_of _ s1 _ _ e k
  · obtain ⟨s1, e, k⟩ := release_tap mame s KEY_1 BTN_START GPAD1 (by simp) hz
    exact outcome_of _ s1 _ _ e k
  · obtain ⟨s1, e, k⟩ := release_tap mame s KEY_3 BTN_SELECT GPAD1 (by simp) hz
    exact outcome_of _ s1 _ _ e k
  · obtain ⟨s1, e, k⟩ := release_tap mame s KEY_2 BTN_START GPAD2 (by simp) hz
    exact outcome_of _ s1 _ _ e k
  · obtain ⟨s1, e, k⟩ := release_tap mame s KEY_4 BTN_SELECT GPAD2 (by simp) hz
    exact outcome_of _ s1 _ _ e k

/-- Witness of `start_select_tap_on_release`: gamepad mode, every key tracked
as released and `combo` 0; a press of KEY_1 does nothing and a release of KEY_3
makes the BTN_SELECT tap. -/
theorem start_select_tap_on_release_witness :
    (1 : Int) ≠ 0 ∧ key3 (stateWith [] 0).keyStates = 0 ∧ key4 (stateWith [] 0).keyStates = 0 ∧
    (stateWith [] 0).combo = 0 ∧
    outcome (processEvent false (stateWith [] 0) (keyEvent KEY_1 1)) = some (0, []) ∧
    outcome (processEvent false (stateWith [] 0) (keyEvent KEY_2 1)) = some (0, []) ∧
    outcome (processEvent false (stateWith [] 0) (keyEvent KEY_3 0)) =
      some (0, [Action.gpadWrite 0 BTN_SELECT 1 EV_KEY, Action.gpadSleep,
        Action.gpadWrite 0 BTN_SELECT 0 EV_KEY]) :=
  ⟨by decide, by decide, by decide, rfl,
    (start_select_tap_on_release false (stateWith [] 0) 1 (by decide)).2.2.1 (by decide),
    (start_select_tap_on_release false (stateWith [] 0) 1 (by decide)).2.2.2.1 (by decide),
    ((start_select_tap_on_release false (stateWith [] 0) 1 (by decide)).2.2.2.2 rfl).2.1⟩

/-! ## One counter for both pairs -/

/-- C10 (counterexample): from the state with only KEY_3 tracked as pressed and
`combo` 0, in gamepad mode, after press KEY_1 (the player-1 chord fires) a
release of KEY_2 makes no call (no BTN_START tap on gamepad index 1) and leaves
`combo` at 1; the following releases of KEY_1 and KEY_3 are then not both
suppressed: the release of KEY_3 makes the BTN_SELECT tap. -/
theorem independent_pairs_counterexample :
    outcome (processEvents (stateWith [KEY_3] 0)
        [(false, keyEvent KEY_1 1), (false, keyEvent KEY_2 0)]) =
      some (1, [Action.kbdWrite KEY_ESC 1 EV_KEY, Action.kbdSleep,
        Action.kbdWrite KEY_ESC 0 EV_KEY]) ∧
    outcome (processEvents (stateWith [KEY_3] 0)
        [(false, keyEvent KEY_1 1), (false, keyEvent KEY_2 0), (false, keyEvent KEY_1 0),
         (false, keyEvent KEY_3 0)]) =
      some (0, [Action.kbdWrite KEY_ESC 1 EV_KEY, Action.kbdSleep,
        Action.kbdWrite KEY_ESC 0 EV_KEY, Action.gpadWrite 0 BTN_SELECT 1 EV_KEY,
        Action.gpadSleep, Action.gpadWrite 0 BTN_SELECT 0 EV_KEY]) ∧
    outcome (processEvents (stateWith [KEY_3] 0)
        [(false, keyEvent KEY_1 1), (false, keyEvent KEY_2 0), (false, keyEvent KEY_1 0),
         (false, keyEvent KEY_3 0)]) ≠
      some (0, [Action.kbdWrite KEY_ESC 1 EV_KEY, Action.kbdSleep,
        Action.kbdWrite KEY_ESC 0 EV_KEY, Action.gpadWrite 1 BTN_START 1 EV_KEY,
        Action.gpadSleep, Action.gpadWrite 1 BTN_START 0 EV_KEY]) := by
  decide

/-- C10 (amended): the two pairs share the one counter `combo`. In any modes,
after the player-1 chord fires (KEY_1 with a non-zero value while
`keyStates[KEY_3]` is non-zero), a release of KEY_2 or KEY_4 makes no call and
lowers `combo` from 2 to 1; of the following releases of KEY_1 and KEY_3 the
first makes no call and the second makes its tap on gamepad index 0. The same
with the players exchanged (KEY_2 with `keyStates[KEY_4]` non-zero, then a
release of KEY_1 or KEY_3, then releases of KEY_2 and KEY_4, taps on gamepad
index 1). -/
theorem shared_counter (s : State) (m1 m2 m3 m4 : Bool) (v : Int) (hv : v ≠ 0) :
    (key3 s.keyStates ≠ 0 → ∀ c, c = KEY_2 ∨ c = KEY_4 →
      outcome (processEvents s [(m1, keyEvent KEY_1 v), (m2, keyEvent c 0)]) =
        some (1, [Action.kbdWrite KEY_ESC 1 EV_KEY, Action.kbdSleep,
          Action.kbdWrite KEY_ESC 0 EV_KEY]) ∧
      outcome (processEvents s [(m1, keyEvent KEY_1 v), (m2, keyEvent c 0),
          (m3, keyEvent KEY_1 0), (m4, keyEvent KEY_3 0)]) =
        some (0, [Action.kbdWrite KEY_ESC 1 EV_KEY, Action.kbdSleep,
          Action.kbdWrite KEY_ESC 0 EV_KEY, Action.gpadWrite 0 BTN_SELECT 1 EV_KEY,
          Action.gpadSleep, Action.gpadWrite 0 BTN_SELECT 0 EV_KEY]) ∧
      outcome (processEvents s [(m1, keyEvent KEY_1 v), (m2, keyEvent c 0),
          (m3, keyEvent KEY_3 0), (m4, keyEvent KEY_1 0)]) =
        some (0, [Action.kbdWrite KEY_ESC 1 EV_KEY, Action.kbdSleep,
          Action.kbdWrite KEY_ESC 0 EV_KEY, Action.gpadWrite 0 BTN_START 1 EV_KEY,
          Action.gpadSleep, Action.gpadWrite 0 BTN_START 0 EV_KEY])) ∧
    (key4 s.keyStates ≠ 0 → ∀ c, c = KEY_1 ∨ c = KEY_3 →
      outcome (processEvents s [(m1, keyEvent KEY_2 v), (m2, keyEvent c 0)]) =
        some (1, [Action.kbdWrite KEY_ESC 1 EV_KEY, Action.kbdSleep,
          Action.kbdWrite KEY_ESC 0 EV_KEY]) ∧
      outcome (processEvents s [(m1, keyEvent KEY_2 v), (m2, keyEvent c 0),
          (m3, keyEvent KEY_2 0), (m4, keyEvent KEY_4 0)]) =
        some (0, [Action.kbdWrite KEY_ESC 1 EV_KEY, Action.kbdSleep,
          Action.kbdWrite KEY_ESC 0 EV_KEY, Action.gpadWrite 1 BTN_SELECT 1 EV_KEY,
          Action.gpadSleep, Action.gpadWrite 1 BTN_SELECT 0 EV_KEY]) ∧
      outcome (processEvents s [(m1, keyEvent KEY_2 v), (m2, keyEvent c 0),
          (m3, keyEvent KEY_4 0), (m4, keyEvent KEY_2 0)]) =
        some (0, [Action.kbdWrite KEY_ESC 1 EV_KEY, Action.kbdSleep,
          Action.kbdWrite KEY_ESC 0 EV_KEY, Action.gpadWrite 1 BTN_START 1 EV_KEY,
          Action.gpadSleep, Action.gpadWrite 1 BTN_START 0 EV_KEY])) := by
  constructor
  · intro h3 c hc
    obtain ⟨s1, e1, k1, _⟩ := press_KEY_1 m1 s v hv
    rw [if_pos h3] at e1 k1
    obtain ⟨s2, e2, k2⟩ := release_swallowed_p2 m2 s1 c hc (by rw [k1]; decide)
    have k2o : s2.combo = 1 := by rw [k2, k1]; rfl
    obtain ⟨a3, ea3, ka3⟩ := release_swallowed_p1 m3 s2 KEY_1 (Or.inl rfl) (by rw [k2o]; decide)
    have ka3z : a3.combo = 0 := by rw [ka3, k2o]; rfl
    obtain ⟨a4, ea4, ka4⟩ := release_tap m4 a3 KEY_3 BTN_SELECT GPAD1 (by simp) ka3z
    obtain ⟨b3, eb3, kb3⟩ := release_swallowed_p1 m3 s2 KEY_3 (Or.inr rfl) (by rw [k2o]; decide)
    have kb3z : b3.combo = 0 := by rw [kb3, k2o]; rfl
    obtain ⟨b4, eb4, kb4⟩ := release_tap m4 b3 KEY_1 BTN_START GPAD1 (by simp) kb3z
    refine ⟨?_, ?_, ?_⟩
    · rw [outcome_cons _ _ _ _ _ _ e1, outcome_cons _ _ _ _ _ _ e2, outcome_nil, k2o]; rfl
    · rw [outcome_cons _ _ _ _ _ _ e1, outcome_cons _ _ _ _ _ _ e2,
        outcome_cons _ _ _ _ _ _ ea3, outcome_cons _ _ _ _ _ _ ea4, outcome_nil, ka4]; rfl
    · rw [outcome_cons _ _ _ _ _ _ e1, outcome_cons _ _ _ _ _ _ e2,
        outcome_cons _ _ _ _ _ _ eb3, outcome_cons _ _ _ _ _ _ eb4, outcome_nil, kb4]; rfl
  · intro h4 c hc
    obtain ⟨s1, e1, k1, _⟩ := press_KEY_2 m1 s v hv
    rw [if_pos h4] at e1 k1
    obtain ⟨s2, e2, k2⟩ := release_swallowed_p1 m2 s1 c hc (by rw [k1]; decide)
    have k2o : s2.combo = 1 := by rw [k2, k1]; rfl
    obtain ⟨a3, ea3, ka3⟩ := release_swallowed_p2 m3 s2 KEY_2 (Or.inl rfl) (by rw [k2o]; decide)
    have ka3z : a3.combo = 0 := by rw [ka3, k2o]; rfl
    obtain ⟨a4, ea4, ka4⟩ := release_tap m4 a3 KEY_4 BTN_SELECT GPAD2 (by simp) ka3z
    obtain ⟨b3, eb3, kb3⟩ := release_swallowed_p2 m3 s2 KEY_4 (Or.inr rfl) (by rw [k2o]; decide)
    have kb3z : b3.combo = 0 := by rw [kb3, k2o]; rfl
    obtain ⟨b4, eb4, kb4⟩ := release_tap m4 b3 KEY_2 BTN_START GPAD2 (by simp) kb3z
    refine ⟨?_, ?_, ?_⟩
    · rw [outcome_cons _ _ _ _ _ _ e1, outcome_cons _ _ _ _ _ _ e2, outcome_nil, k2o]; rfl
    · rw [outcome_cons _ _ _ _ _ _ e1, outcome_cons _ _ _ _ _ _ e2,
        outcome_cons _ _ _ _ _ _ ea3, outcome_cons _ _ _ _ _ _ ea4, outcome_nil, ka4]; rfl
    · rw [outcome_cons _ _ _ _ _ _ e1, outcome_cons _ _ _ _ _ _ e2,
        outcome_cons _ _ _ _ _ _ eb3, outcome_cons _ _ _ _ _ _ eb4, outcome_nil, kb4]; rfl

/-- Witness of `shared_counter`: gamepad mode, only KEY_3 tracked as pressed;
press KEY_1, release KEY_4, release KEY_3, release KEY_1. -/
theorem shared_counter_witness :
    (1 : Int) ≠ 0 ∧ key3 (stateWith [KEY_3] 0).keyStates ≠ 0 ∧ (KEY_4 = KEY_2 ∨ KEY_4 = KEY_4) ∧
    outcome (processEvents (stateWith [KEY_3] 0) [(false, keyEvent KEY_1 1),
        (false, keyEvent KEY_4 0), (false, keyEvent KEY_3 0), (false, keyEvent KEY_1 0)]) =
      some (0, [Action.kbdWrite KEY_ESC 1 EV_KEY, Action.kbdSleep,
        Action.kbdWrite KEY_ESC 0 EV_KEY, Action.gpadWrite 0 BTN_START 1 EV_KEY,
        Action.gpadSleep, Action.gpadWrite 0 BTN_START 0 EV_KEY]) :=
  ⟨by decide, by decide, Or.inr rfl,
    ((shared_counter (stateWith [KEY_3] 0) false false false false 1 (by decide)).1 (by decide)
      KEY_4 (Or.inr rfl)).2.2⟩

/-! ## Mode toggling -/

/-- A code that is no case label takes the `default` branch. -/
theorem keySwitch_default (m : Bool) (ks : KeyStates) (combo : Int) (code : Nat) (v : Int)
    (h : code ∉ switchCodes) : keySwitch m ks combo code v = (combo, []) := by
  simp only [switchCodes, player1Codes, player2Codes, List.cons_append, List.nil_append,
    List.mem_cons, List.mem_singleton, List.not_mem_nil, or_false, not_or] at h
  obtain ⟨h1, h2, h3, h4, h5, h6, h7, h8, h9, h10, h11, h12, h13, h14, h15, h16, h17, h18, h19,
    h20, h21, h22, h23, h24, h25, h26, h27, h28, h29, h30, h31, h32⟩ := h
  unfold keySwitch
  simp only [h1, h2, h3, h4, h5, h6, h7, h8, h9, h10, h11, h12, h13, h14, h15, h16, h17, h18,
    h19, h20, h21, h22, h23, h24, h25, h26, h27, h28, h29, h30, h31, h32, if_false, or_self]

/-- The switch gives the same `combo` and the same KEY_ESC writes in both modes. -/
theorem keySwitch_mode (m m' : Bool) (ks : KeyStates) (combo : Int) (code : Nat) (v : Int) :
    (keySwitch m ks combo code v).1 = (keySwitch m' ks combo code v).1 ∧
    escWrites (keySwitch m ks combo code v).2 = escWrites (keySwitch m' ks combo code v).2 := by
  by_cases h : code ∈ switchCodes
  · simp only [switchCodes, player1Codes, player2Codes, List.cons_append, List.nil_append] at h
    cases m <;> cases m' <;> fin_cases h <;> exact ⟨rfl, rfl⟩
  · rw [keySwitch_default _ _ _ _ _ h, keySwitch_default _ _ _ _ _ h]; exact ⟨rfl, rfl⟩


/-- One event: same state and same KEY_ESC writes in both modes. -/
theorem processEvent_mode (m m' : Bool) (s : State) (ev : InputEvent) :
    (processEvent m s ev).map (fun r => (r.1, escWrites r.2)) =
      (processEvent m' s ev).map (fun r => (r.1, escWrites r.2)) := by
  unfold processEvent
  split_ifs with h0 h1 h2 h3
  · rfl
  · rfl
  · obtain ⟨e1, e2⟩ := keySwitch_mode m m' (setKey s.keyStates ⟨ev.code, h3⟩ ev.value) s.combo
      ev.code ev.value
    simp only [Option.map_some', e1, e2]
  · rfl
  · rfl

/-- The loop on a non-empty sequence, as a bind. -/
theorem processEvents_cons (m : Bool) (s : State) (ev : InputEvent)
    (rest : List (Bool × InputEvent)) :
    processEvents s ((m, ev) :: rest) =
      (processEvent m s ev).bind (fun r1 =>
        (processEvents r1.1 rest).map (fun r2 => (r2.1, r1.2 ++ r2.2))) := by
  rw [processEvents]
  cases h : processEvent m s ev with
  | none => rfl
  | some r1 =>
    obtain ⟨s1, o1⟩ := r1
    simp only [Option.some_bind]
    cases processEvents s1 rest <;> rfl

/-- The loop on two sequences in a row. -/
theorem processEvents_append (s : State) (l1 l2 : List (Bool × InputEvent)) :
    processEvents s (l1 ++ l2) =
      (processEvents s l1).bind (fun r1 =>
        (processEvents r1.1 l2).map (fun r2 => (r2.1, r1.2 ++ r2.2))) := by
  induction l1 generalizing s with
  | nil =>
    simp only [List.nil_append, processEvents, Option.some_bind]
    cases processEvents s l2 <;> simp
  | cons e l1 ih =>
    obtain ⟨m, ev⟩ := e
    rw [List.cons_append, processEvents_cons, processEvents_cons]
    cases h : processEvent m s ev with
    | none => rfl
    | some r1 =>
      simp only [Option.some_bind, ih]
      cases processEvents r1.1 l1 with
      | none => rfl
      | some r2 =>
        simp only [Option.some_bind, Option.map_some']
        cases processEvents r2.1 l2 with
        | none => rfl
        | some r3 => simp [List.append_assoc]

/-- A sequence: same state and same KEY_ESC writes under any two mode schedules. -/
theorem processEvents_mode (s : State) (l l' : List (Bool × InputEvent))
    (h : l.map Prod.snd = l'.map Prod.snd) :
    (processEvents s l).map (fun r => (r.1, escWrites r.2)) =
      (processEvents s l').map (fun r => (r.1, escWrites r.2)) := by
  induction l generalizing s l' with
  | nil =>
    cases l' with
    | nil => rfl
    | cons e l' => simp at h
  | cons e l ih =>
    cases l' with
    | nil => simp at h
    | cons e' l' =>
      obtain ⟨m, ev⟩ := e
      obtain ⟨m', ev'⟩ := e'
      simp only [List.map_cons, List.cons.injEq] at h
      obtain ⟨hev, hl⟩ := h
      subst hev
      rw [processEvents_cons, processEvents_cons]
      have hm := processEvent_mode m m' s ev
      cases h1 : processEvent m s ev with
      | none =>
        rw [h1] at hm
        cases h2 : processEvent m' s ev with
        | none => rfl
        | some r2 => rw [h2] at hm; simp at hm
      | some r1 =>
        rw [h1] at hm
        cases h2 : processEvent m' s ev with
        | none => rw [h2] at hm; simp at hm
        | some r2 =>
          rw [h2] at hm
          simp only [Option.map_some', Option.some.injEq, Prod.mk.injEq] at hm
          obtain ⟨hs, ho⟩ := hm
          simp only [Option.some_bind, hs]
          have ih' := ih r2.1 l' hl
          cases h3 : processEvents r2.1 l with
          | none =>
            rw [h3] at ih'
            cases h4 : processEvents r2.1 l' with
            | none => rfl
            | some r4 => rw [h4] at ih'; simp at ih'
          | some r3 =>
            rw [h3] at ih'
            cases h4 : processEvents r2.1 l' with
            | none => rw [h4] at ih'; simp at ih'
            | some r4 =>
              rw [h4] at ih'
              simp only [Option.map_some', Option.some.injEq, Prod.mk.injEq] at ih'
              simp only [Option.map_some', escWrites, List.filter_append] at ih' ⊢
              simp only [escWrites] at ho
              rw [ih'.1, ih'.2, ho]

/-- C11: from every state, two runs over the same events under any two mode
schedules either both have no result or end in the same state (key-state
array and `combo`) with the same keyboard writes of KEY_ESC; and processing
b1 under m then b2 under m2 makes the calls of b1 under m followed by the
calls of b2 under m2 from the state reached after b1, the writes of a
concatenation being the concatenation of the writes. -/
theorem mode_independence (s : State) (l l' : List (Bool × InputEvent))
    (h : l.map Prod.snd = l'.map Prod.snd) (b1 b2 : List InputEvent) (m m2 : Bool) :
    (processEvents s l).map (fun r => (r.1, escWrites r.2)) =
      (processEvents s l').map (fun r => (r.1, escWrites r.2)) ∧
    processEvents s (b1.map (Prod.mk m) ++ b2.map (Prod.mk m2)) =
      (processEvents s (b1.map (Prod.mk m))).bind (fun r1 =>
        (processEvents r1.1 (b2.map (Prod.mk m2))).map (fun r2 => (r2.1, r1.2 ++ r2.2))) ∧
    (∀ o1 o2 : List Action, writes (o1 ++ o2) = writes o1 ++ writes o2) :=
  ⟨processEvents_mode s l l' h, processEvents_append s _ _,
    fun o1 o2 => by simp [writes, List.filter_append]⟩

/-- Witness of `mode_independence`: KEY_A then KEY_1 with KEY_3 tracked as
pressed, once in gamepad mode and once in MAME mode. -/
theorem mode_independence_witness :
    [(false, keyEvent KEY_A 1), (false, keyEvent KEY_1 1)].map Prod.snd =
      [(true, keyEvent KEY_A 1), (true, keyEvent KEY_1 1)].map Prod.snd ∧
    (processEvents (stateWith [KEY_3] 0)
        [(false, keyEvent KEY_A 1), (false, keyEvent KEY_1 1)]).map
        (fun r => (r.1, escWrites r.2)) =
      (processEvents (stateWith [KEY_3] 0)
        [(true, keyEvent KEY_A 1), (true, keyEvent KEY_1 1)]).map
        (fun r => (r.1, escWrites r.2)) :=
  ⟨rfl, (mode_independence (stateWith [KEY_3] 0) _ _ rfl [] [] false false).1⟩

/-! ## Codes without a case label -/

/-- C12 (counterexample): the switch has 32 case labels, not 40; they are
pairwise distinct and each of them is handled (in gamepad mode, with `combo`
0, a release of it makes a call). -/
theorem handled_codes_counterexample :
    switchCodes.length = 32 ∧ switchCodes.length ≠ 40 ∧ switchCodes.Nodup ∧
    ∀ c ∈ switchCodes, (keySwitch false (fun _ => 0) 0 c 0).2 ≠ [] := by
  decide

/-- C12 (amended): in gamepad mode and in MAME mode, from every state, a KEY
event whose code is in 0..255 and is none of the 32 case labels of the switch
makes no call and leaves `combo` unchanged (only its key state is stored). -/
theorem unmapped_dropped (mame : Bool) (s : State) (code : Nat) (v : Int) (hc : code < 256)
    (h : code ∉ switchCodes) :
    processEvent mame s (keyEvent code v) =
      some (⟨setKey s.keyStates ⟨code, hc⟩ v, s.combo⟩, []) := by
  rw [processEvent_key mame s code v hc, keySwitch_default _ _ _ _ _ h]

/-- Witness of `unmapped_dropped`: KEY_ESC itself (code 1) in MAME mode. -/
theorem unmapped_dropped_witness :
    KEY_ESC < 256 ∧ KEY_ESC ∉ switchCodes ∧
    outcome (processEvent true (stateWith [] 0) (keyEvent KEY_ESC 1)) = some (0, []) :=
  ⟨by decide, by decide,
    by rw [unmapped_dropped true (stateWith [] 0) KEY_ESC 1 (by decide) (by decide)]; rfl⟩

/-! ## Key state tracking -/

/-- The entry just stored, read back. -/
theorem tracked_setKey_self (ks : KeyStates) (c : Nat) (hc : c < 256) (v : Int) :
    tracked (setKey ks ⟨c, hc⟩ v) c = toChar v := by
  simp [tracked, setKey, hc]

/-- The store leaves every other entry alone. -/
theorem tracked_setKey_other (ks : KeyStates) (c : Nat) (hc : c < 256) (v : Int) (d : Nat)
    (hd : d ≠ c) : tracked (setKey ks ⟨c, hc⟩ v) d = tracked ks d := by
  unfold tracked setKey
  split_ifs with h1 h2
  · exact absurd (congrArg Fin.val h2) hd
  · rfl
  · rfl

/-- An event whose type is not EV_KEY changes nothing and makes no call. -/
theorem processEvent_other (mame : Bool) (s : State) (ev : InputEvent) (h : ev.type ≠ EV_KEY) :
    processEvent mame s ev = some (s, []) := by
  unfold processEvent
  split_ifs with h0 h1 h2 h3
  · rfl
  · rfl
  · exact absurd h2.symm h
  · exact absurd h2.symm h
  · rfl

/-- C13: in either mode and from every state, a KEY event with code c in
0..255 and value v in {0, 1, 2} has a result in which `keyStates[c]` is v and
every other entry is unchanged, whatever the switch then does; the switch
(chord test included) runs on the array as updated. An event whose type is not
EV_KEY leaves the array and `combo` unchanged and makes no call. -/
theorem key_state_tracking (mame : Bool) (s : State) (c : Nat) (v : Int) (hc : c < 256)
    (hv : v = 0 ∨ v = 1 ∨ v = 2) (ev : InputEvent) (hev : ev.type ≠ EV_KEY) :
    (∃ s1 acts, processEvent mame s (keyEvent c v) = some (s1, acts) ∧
      tracked s1.keyStates c = v ∧
      (∀ d, d ≠ c → tracked s1.keyStates d = tracked s.keyStates d) ∧
      keySwitch mame s1.keyStates s.combo c v = (s1.combo, acts)) ∧
    processEvent mame s ev = some (s, []) := by
  refine ⟨⟨_, _, processEvent_key mame s c v hc, ?_, ?_, rfl⟩, processEvent_other mame s ev hev⟩
  · rw [tracked_setKey_self]
    rcases hv with rfl | rfl | rfl <;> rfl
  · intro d hd
    exact tracked_setKey_other _ _ _ _ _ hd

/-- Witness of `key_state_tracking`: a repeat of KEY_1 consumed by the chord
logic, and an EV_MSC scancode event. -/
theorem key_state_tracking_witness :
    KEY_1 < 256 ∧ ((2 : Int) = 0 ∨ (2 : Int) = 1 ∨ (2 : Int) = 2) ∧
    (⟨EV_MSC, 4, 458782⟩ : InputEvent).type ≠ EV_KEY ∧
    (∃ s1 acts, processEvent false (stateWith [KEY_3] 0) (keyEvent KEY_1 2) = some (s1, acts) ∧
      tracked s1.keyStates KEY_1 = 2 ∧
      (∀ d, d ≠ KEY_1 → tracked s1.keyStates d = tracked (stateWith [KEY_3] 0).keyStates d) ∧
      keySwitch false s1.keyStates (stateWith [KEY_3] 0).combo KEY_1 2 = (s1.combo, acts)) ∧
    processEvent false (stateWith [KEY_3] 0) ⟨EV_MSC, 4, 458782⟩ = some (stateWith [KEY_3] 0, []) :=
  ⟨by decide, by decide, by decide,
    key_state_tracking false (stateWith [KEY_3] 0) KEY_1 2 (by decide) (by decide)
      ⟨EV_MSC, 4, 458782⟩ (by decide)⟩

/-! ## Key states at startup -/

/-- C14 (the code at the failing inputs): `keyStates` has no initialiser; when
the stack leaves a non-zero byte in `keyStates[KEY_3]`, the very first event, a
press of KEY_1, makes the Escape tap and sets `combo` to 2 although no KEY_3
event was ever processed; likewise for KEY_2 with `keyStates[KEY_4]`. Only
when the stack happens to hold zeroes does the press do nothing. -/
theorem unseen_key_fires_chord :
    outcome (processEvents (startState (fun i => if i.val = KEY_3 then 1 else 0))
        [(false, keyEvent KEY_1 1)]) =
      some (2, [Action.kbdWrite KEY_ESC 1 EV_KEY, Action.kbdSleep,
        Action.kbdWrite KEY_ESC 0 EV_KEY]) ∧
    outcome (processEvents (startState (fun i => if i.val = KEY_4 then 1 else 0))
        [(false, keyEvent KEY_2 1)]) =
      some (2, [Action.kbdWrite KEY_ESC 1 EV_KEY, Action.kbdSleep,
        Action.kbdWrite KEY_ESC 0 EV_KEY]) ∧
    outcome (processEvents (startState (fun _ => 0)) [(false, keyEvent KEY_1 1)]) =
      some (0, []) := by
  decide

/-! ## Player routing -/

/-- In gamepad mode the switch writes to the keyboard only as one Escape tap,
and to the gamepad of the player the case label belongs to. -/
theorem keySwitch_routing (ks : KeyStates) (combo : Int) (code : Nat) (v : Int) :
    (kbdWrites (keySwitch false ks combo code v).2 = [] ∨
      kbdWrites (keySwitch false ks combo code v).2 =
        [Action.kbdWrite KEY_ESC 1 EV_KEY, Action.kbdWrite KEY_ESC 0 EV_KEY]) ∧
    (code ∈ player1Codes → (keySwitch false ks combo code v).2.all (Action.onlyGpad 0) = true) ∧
    (code ∈ player2Codes → (keySwitch false ks combo code v).2.all (Action.onlyGpad 1) = true) := by
  by_cases h1 : code = KEY_1
  · subst h1; rw [keySwitch_KEY_1]
    split_ifs <;> exact ⟨by first | exact Or.inl rfl | exact Or.inr rfl, fun _ => rfl,
      fun h => absurd h (by decide)⟩
  by_cases h3 : code = KEY_3
  · subst h3; rw [keySwitch_KEY_3]
    split_ifs <;> exact ⟨Or.inl rfl, fun _ => rfl, fun h => absurd h (by decide)⟩
  by_cases h2 : code = KEY_2
  · subst h2; rw [keySwitch_KEY_2]
    split_ifs <;> exact ⟨by first | exact Or.inl rfl | exact Or.inr rfl,
      fun h => absurd h (by decide), fun _ => rfl⟩
  by_cases h4 : code = KEY_4
  · subst h4; rw [keySwitch_KEY_4]
    split_ifs <;> exact ⟨Or.inl rfl, fun h => absurd h (by decide), fun _ => rfl⟩
  by_cases h : code ∈ switchCodes
  · simp only [switchCodes, player1Codes, player2Codes, List.cons_append, List.nil_append] at h
    fin_cases h <;>
    first
    | exact absurd rfl h1
    | exact absurd rfl h2
    | exact absurd rfl h3
    | exact absurd rfl h4
    | exact ⟨Or.inl rfl, fun _ => rfl, fun h => absurd h (by decide)⟩
    | exact ⟨Or.inl rfl, fun h => absurd h (by decide), fun _ => rfl⟩
  · rw [keySwitch_default _ _ _ _ _ h]
    exact ⟨Or.inl rfl, fun _ => rfl, fun _ => rfl⟩

/-- C15: in gamepad mode, from every state, a KEY event with code in 0..255
has a result whose keyboard writes are none or exactly the pair
(KEY_ESC, 1, EV_KEY), (KEY_ESC, 0, EV_KEY); when the code is a player-1 case
label every gamepad write goes to index 0, when it is a player-2 case label
every gamepad write goes to index 1. -/
theorem player_routing (s : State) (code : Nat) (v : Int) (hc : code < 256) :
    ∃ s1 acts, processEvent false s (keyEvent code v) = some (s1, acts) ∧
      (kbdWrites acts = [] ∨
        kbdWrites acts = [Action.kbdWrite KEY_ESC 1 EV_KEY, Action.kbdWrite KEY_ESC 0 EV_KEY]) ∧
      (code ∈ player1Codes → ∀ g c x t, Action.gpadWrite g c x t ∈ acts → g = 0) ∧
      (code ∈ player2Codes → ∀ g c x t, Action.gpadWrite g c x t ∈ acts → g = 1) := by
  obtain ⟨hk, hp1, hp2⟩ := keySwitch_routing (setKey s.keyStates ⟨code, hc⟩ v) s.combo code v
  refine ⟨_, _, processEvent_key false s code v hc, hk, ?_, ?_⟩
  · intro h g c x t hm
    have := List.all_eq_true.mp (hp1 h) _ hm
    simpa [Action.onlyGpad] using this
  · intro h g c x t hm
    have := List.all_eq_true.mp (hp2 h) _ hm
    simpa [Action.onlyGpad] using this

/-- Witness of `player_routing`: KEY_G (player 2 right) pressed. -/
theorem player_routing_witness :
    KEY_G < 256 ∧ KEY_G ∈ player2Codes ∧
    ∃ s1 acts, processEvent false (stateWith [] 0) (keyEvent KEY_G 1) = some (s1, acts) ∧
      (kbdWrites acts = [] ∨
        kbdWrites acts = [Action.kbdWrite KEY_ESC 1 EV_KEY, Action.kbdWrite KEY_ESC 0 EV_KEY]) ∧
      (KEY_G ∈ player1Codes → ∀ g c x t, Action.gpadWrite g c x t ∈ acts → g = 0) ∧
      (KEY_G ∈ player2Codes → ∀ g c x t, Action.gpadWrite g c x t ∈ acts → g = 1) :=
  ⟨by decide, by decide, player_routing (stateWith [] 0) KEY_G 1 (by decide)⟩

/-! ## Teardown -/

/-- C16 (counterexample): the read-failure path followed by the signal path
(SIGTERM) calls each of the four close functions twice, and the second
invocation does release: it is not empty. -/
theorem teardown_twice_counterexample :
    (mainExit ++ signal_handler 15).count Release.inputClose = 2 ∧
    (mainExit ++ signal_handler 15).count (Release.gpadClose 0) = 2 ∧
    (mainExit ++ signal_handler 15).count (Release.gpadClose 1) = 2 ∧
    (mainExit ++ signal_handler 15).count Release.kbdClose = 2 ∧
    signal_handler 15 ≠ [] := by
  decide

/-- Each release is made once per invocation of `teardown`. -/
theorem count_teardownTimes (n : Nat) (r : Release) :
    (teardownTimes n).count r = n * teardown.count r := by
  induction n with
  | zero => simp [teardownTimes]
  | succ n ih => rw [teardownTimes, List.count_append, ih]; ring

/-- C16 (amended): `teardown` has no guard: every invocation closes the input
device, gamepad 0, gamepad 1 and the keyboard, once each and in this order;
both shutdown paths are one such invocation; `n` invocations in sequence make
each of the four closes `n` times, two invocations being the same calls twice. -/
theorem teardown_every_time (n signum : Nat) :
    teardown = [Release.inputClose, Release.gpadClose 0, Release.gpadClose 1, Release.kbdClose] ∧
    signal_handler signum = teardown ∧ mainExit = teardown ∧
    (teardownTimes n).count Release.inputClose = n ∧
    (teardownTimes n).count (Release.gpadClose 0) = n ∧
    (teardownTimes n).count (Release.gpadClose 1) = n ∧
    (teardownTimes n).count Release.kbdClose = n ∧
    teardownTimes 2 = teardown ++ teardown := by
  refine ⟨rfl, rfl, rfl, ?_, ?_, ?_, ?_, by simp [teardownTimes]⟩ <;>
  · rw [count_teardownTimes]
    simp [teardown]

/-! ## The counter -/

/-- The value of `combo` after the switch. -/
theorem keySwitch_combo (m : Bool) (ks : KeyStates) (combo : Int) (code : Nat) (v : Int) :
    (keySwitch m ks combo code v).1 =
      if (code = KEY_1 ∧ key3 ks ≠ 0 ∧ v ≠ 0) ∨ (code = KEY_2 ∧ key4 ks ≠ 0 ∧ v ≠ 0) then 2
      else if (code = KEY_1 ∨ code = KEY_2 ∨ code = KEY_3 ∨ code = KEY_4) ∧ v = 0 ∧ combo ≠ 0
        then combo - 1
      else combo := by
  by_cases h1 : code = KEY_1
  · subst h1; rw [keySwitch_KEY_1]
    split_ifs <;> simp_all [KEY_1, KEY_2]
  by_cases h3 : code = KEY_3
  · subst h3; rw [keySwitch_KEY_3]
    split_ifs <;> simp_all [KEY_1, KEY_2, KEY_3]
  by_cases h2 : code = KEY_2
  · subst h2; rw [keySwitch_KEY_2]
    split_ifs <;> simp_all [KEY_1, KEY_2]
  by_cases h4 : code = KEY_4
  · subst h4; rw [keySwitch_KEY_4]
    split_ifs <;> simp_all [KEY_1, KEY_2, KEY_4]
  rw [if_neg (by simp [h1, h2]), if_neg (by simp [h1, h2, h3, h4])]
  by_cases h : code ∈ switchCodes
  · simp only [switchCodes, player1Codes, player2Codes, List.cons_append, List.nil_append] at h
    cases m <;> fin_cases h <;>
    first
    | exact absurd rfl h1
    | exact absurd rfl h2
    | exact absurd rfl h3
    | exact absurd rfl h4
    | rfl
  · rw [keySwitch_default _ _ _ _ _ h]

/-- What a result of one iteration looks like. -/
theorem processEvent_some (m : Bool) (s s1 : State) (ev : InputEvent) (acts : List Action)
    (h : processEvent m s ev = some (s1, acts)) :
    (ev.type ≠ EV_KEY ∧ s1 = s ∧ acts = []) ∨
    (ev.type = EV_KEY ∧ ∃ hc : ev.code < 256,
      s1.keyStates = setKey s.keyStates ⟨ev.code, hc⟩ ev.value ∧
      s1.combo = (keySwitch m s1.keyStates s.combo ev.code ev.value).1 ∧
      acts = (keySwitch m s1.keyStates s.combo ev.code ev.value).2) := by
  by_cases ht : ev.type = EV_KEY
  · right
    refine ⟨ht, ?_⟩
    by_cases hc : ev.code < 256
    · have hk := processEvent_key m s ev.code ev.value hc
      have hev : keyEvent ev.code ev.value = ev := by
        cases ev; simp only [keyEvent] at *; simp [ht]
      rw [hev, h] at hk
      simp only [Option.some.injEq, Prod.mk.injEq] at hk
      obtain ⟨hs, ha⟩ := hk
      subst hs
      exact ⟨hc, rfl, rfl, ha⟩
    · exfalso
      unfold processEvent at h
      rw [ht] at h
      simp [EV_KEY, EV_MSC, hc] at h
  · left
    rw [processEvent_other m s ev ht] at h
    simp only [Option.some.injEq, Prod.mk.injEq] at h
    exact ⟨ht, h.1.symm, h.2.symm⟩

/-- An iteration has a result unless a KEY code falls outside the array. -/
theorem processEvent_defined (m : Bool) (s : State) (ev : InputEvent)
    (h : ev.type = EV_KEY → ev.code < 256) : ∃ r, processEvent m s ev = some r := by
  by_cases ht : ev.type = EV_KEY
  · have hev : keyEvent ev.code ev.value = ev := by
      cases ev; simp only [keyEvent] at *; simp [ht]
    exact ⟨_, hev ▸ processEvent_key m s ev.code ev.value (h ht)⟩
  · exact ⟨_, processEvent_other m s ev ht⟩

/-- A run has a result unless a KEY code falls outside the array. -/
theorem processEvents_defined (s : State) (l : List (Bool × InputEvent))
    (h : ∀ e ∈ l, e.2.type = EV_KEY → e.2.code < 256) : ∃ r, processEvents s l = some r := by
  induction l generalizing s with
  | nil => exact ⟨_, rfl⟩
  | cons e l ih =>
    obtain ⟨m, ev⟩ := e
    obtain ⟨r1, h1⟩ := processEvent_defined m s ev (h (m, ev) (List.mem_cons_self _ _))
    obtain ⟨r2, h2⟩ := ih r1.1 (fun e he => h e (List.mem_cons_of_mem _ he))
    rw [processEvents_cons, h1, Option.some_bind, h2]
    exact ⟨_, rfl⟩

/-- Splitting the result of a run on a non-empty sequence. -/
theorem processEvents_cons_some (m : Bool) (s s2 : State) (ev : InputEvent)
    (rest : List (Bool × InputEvent)) (acts : List Action)
    (h : processEvents s ((m, ev) :: rest) = some (s2, acts)) :
    ∃ s1 o1 o2, processEvent m s ev = some (s1, o1) ∧
      processEvents s1 rest = some (s2, o2) ∧ acts = o1 ++ o2 := by
  rw [processEvents_cons] at h
  cases h1 : processEvent m s ev with
  | none => rw [h1] at h; simp at h
  | some r1 =>
    rw [h1, Option.some_bind] at h
    cases h2 : processEvents r1.1 rest with
    | none => rw [h2] at h; simp at h
    | some r2 =>
      rw [h2] at h
      simp only [Option.map_some', Option.some.injEq, Prod.mk.injEq] at h
      exact ⟨r1.1, r1.2, r2.2, rfl, by rw [← h.1]; exact h2, h.2.symm⟩

/-- How one iteration can change `combo`. -/
theorem combo_step (m : Bool) (s s1 : State) (ev : InputEvent) (acts : List Action)
    (h : processEvent m s ev = some (s1, acts)) :
    s1.combo = s.combo ∨
    (ev.type = EV_KEY ∧ ev.value ≠ 0 ∧
      ((ev.code = KEY_1 ∧ key3 s.keyStates ≠ 0) ∨ (ev.code = KEY_2 ∧ key4 s.keyStates ≠ 0)) ∧
      s1.combo = 2) ∨
    (ev.type = EV_KEY ∧ ev.value = 0 ∧
      (ev.code = KEY_1 ∨ ev.code = KEY_2 ∨ ev.code = KEY_3 ∨ ev.code = KEY_4) ∧
      s.combo ≠ 0 ∧ s1.combo = s.combo - 1) := by
  rcases processEvent_some m s s1 ev acts h with ⟨_, hs, _⟩ | ⟨ht, hc, hks, hcombo, _⟩
  · left; rw [hs]
  · rw [keySwitch_combo] at hcombo
    split_ifs at hcombo with hf hr
    · right; left
      refine ⟨ht, ?_, ?_, hcombo⟩
      · rcases hf with ⟨_, _, hv⟩ | ⟨_, _, hv⟩ <;> exact hv
      · rcases hf with ⟨h1, hk, _⟩ | ⟨h2, hk, _⟩
        · left; refine ⟨h1, ?_⟩
          rw [hks, key3_setKey _ _ _ (by simp [h1, KEY_1, KEY_3])] at hk; exact hk
        · right; refine ⟨h2, ?_⟩
          rw [hks, key4_setKey _ _ _ (by simp [h2, KEY_2, KEY_4])] at hk; exact hk
    · right; right
      exact ⟨ht, hr.2.1, hr.1, hr.2.2, hcombo⟩
    · left; exact hcombo

/-- The bounds 0..2 on `combo` are kept by a run. -/
theorem combo_bounds_run (s s1 : State) (l : List (Bool × InputEvent)) (acts : List Action)
    (hs : s.combo = 0 ∨ s.combo = 1 ∨ s.combo = 2) (h : processEvents s l = some (s1, acts)) :
    s1.combo = 0 ∨ s1.combo = 1 ∨ s1.combo = 2 := by
  induction l generalizing s acts with
  | nil =>
    simp only [processEvents, Option.some.injEq, Prod.mk.injEq] at h
    rw [← h.1]; exact hs
  | cons e l ih =>
    obtain ⟨m, ev⟩ := e
    obtain ⟨s', o1, o2, h1, h2, _⟩ := processEvents_cons_some m s s1 ev l acts h
    refine ih s' o2 ?_ h2
    rcases combo_step m s s' ev o1 h1 with hc | ⟨_, _, _, hc⟩ | ⟨_, _, _, hne, hc⟩
    · rw [hc]; exact hs
    · right; right; exact hc
    · rw [hc]; omega


/-- The counter on runs that stay inside the array: starting with `combo` = 0
and any contents of `keyStates`, for every sequence of events and every mode
schedule, the run has a result as long as no KEY code falls outside the array,
and in every result (so after every event, each initial part of a sequence
being a sequence) `combo` is 0, 1 or 2. One iteration from a state with
`combo` >= 0 changes `combo` only when the chord fires (KEY_1 with
`keyStates[KEY_3]` non-zero, or KEY_2 with `keyStates[KEY_4]` non-zero, value
non-zero), to 2, or on a release of KEY_1, KEY_2, KEY_3 or KEY_4 while `combo`
is positive, by exactly -1. -/
theorem counter_bounds_in_range (stack : KeyStates) (l : List (Bool × InputEvent)) :
    ((∀ e ∈ l, e.2.type = EV_KEY → e.2.code < 256) →
      ∃ r, processEvents (startState stack) l = some r) ∧
    (∀ s1 acts, processEvents (startState stack) l = some (s1, acts) →
      s1.combo = 0 ∨ s1.combo = 1 ∨ s1.combo = 2) ∧
    (∀ (m : Bool) (s s1 : State) (ev : InputEvent) (acts : List Action),
      0 ≤ s.combo → processEvent m s ev = some (s1, acts) → s1.combo ≠ s.combo →
      (ev.type = EV_KEY ∧ ev.value ≠ 0 ∧
        ((ev.code = KEY_1 ∧ key3 s.keyStates ≠ 0) ∨ (ev.code = KEY_2 ∧ key4 s.keyStates ≠ 0)) ∧
        s1.combo = 2) ∨
      (ev.type = EV_KEY ∧ ev.value = 0 ∧
        (ev.code = KEY_1 ∨ ev.code = KEY_2 ∨ ev.code = KEY_3 ∨ ev.code = KEY_4) ∧
        0 < s.combo ∧ s1.combo = s.combo - 1)) := by
  refine ⟨processEvents_defined _ l, fun s1 acts h => ?_, fun m s s1 ev acts h0 h hne => ?_⟩
  · exact combo_bounds_run (startState stack) s1 l acts (Or.inl rfl) h
  · rcases combo_step m s s1 ev acts h with hc | hf | ⟨ht, hv, hk, hnz, hc⟩
    · exact absurd hc hne
    · exact Or.inl hf
    · exact Or.inr ⟨ht, hv, hk, by omega, hc⟩

/-- Witness of `counter_bounds_in_range`: press KEY_3, press KEY_1 in MAME
mode (the chord fires), release KEY_1, from zeroed key states. -/
theorem counter_bounds_in_range_witness :
    (∀ e ∈ [(false, keyEvent KEY_3 1), (true, keyEvent KEY_1 1), (false, keyEvent KEY_1 0)],
      e.2.type = EV_KEY → e.2.code < 256) ∧
    (∃ r, processEvents (startState (fun _ => 0))
      [(false, keyEvent KEY_3 1), (true, keyEvent KEY_1 1), (false, keyEvent KEY_1 0)] = some r) ∧
    (∀ s1 acts, processEvents (startState (fun _ => 0))
        [(false, keyEvent KEY_3 1), (true, keyEvent KEY_1 1), (false, keyEvent KEY_1 0)] =
          some (s1, acts) → s1.combo = 0 ∨ s1.combo = 1 ∨ s1.combo = 2) ∧
    outcome (processEvents (startState (fun _ => 0))
      [(false, keyEvent KEY_3 1), (true, keyEvent KEY_1 1), (false, keyEvent KEY_1 0)]) =
      some (1, [Action.kbdWrite KEY_ESC 1 EV_KEY, Action.kbdSleep,
        Action.kbdWrite KEY_ESC 0 EV_KEY]) :=
  ⟨by decide, (counter_bounds_in_range (fun _ => 0) _).1 (by decide),
    (counter_bounds_in_range (fun _ => 0) _).2.1, by decide⟩

/-- C17 (the code at the failing input): starting with `combo` = 0, the single
KEY event with code 280 and value 1 is neither a chord fire nor a release of
KEY_1, KEY_2, KEY_3 or KEY_4, yet its iteration stores into `keyStates[280]`,
outside the 256-entry array, which is a local of `main` as `combo` is: the run
has no defined result, so no value of `combo` within 0..2 is guaranteed after
it. The same holds from any start contents of `keyStates`, in
any mode, for every code 256 + k and every value. -/
theorem counter_bounds_out_of_range :
    processEvents (startState (fun _ => 0)) [(false, keyEvent 280 1)] = none ∧
    (startState (fun _ => 0)).combo = 0 ∧
    (keyEvent 280 1).code ∉ [KEY_1, KEY_2, KEY_3, KEY_4] ∧
    ∀ (stack : KeyStates) (m : Bool) (k : Nat) (v : Int),
      processEvents (startState stack) [(m, keyEvent (256 + k) v)] = none := by
  refine ⟨rfl, rfl, by decide, fun stack m k v => ?_⟩
  simp [processEvents, processEvent, keyEvent, EV_KEY, EV_MSC]

/-- The entry read back after a store. -/
theorem tracked_setKey (ks : KeyStates) (c : Nat) (hc : c < 256) (v : Int) (d : Nat) :
    tracked (setKey ks ⟨c, hc⟩ v) d = if d = c then toChar v else tracked ks d := by
  by_cases h : d = c
  · subst h; rw [if_pos rfl]; simp [tracked, setKey, hc]
  · rw [if_neg h]
    unfold tracked setKey
    split_ifs with h1 h2
    · exact absurd (congrArg Fin.val h2) h
    · rfl
    · rfl

/-- The entry `keyStates[KEY_3]` read through `tracked`. -/
theorem key3_eq_tracked (ks : KeyStates) : key3 ks = tracked ks KEY_3 := rfl

/-- The entry `keyStates[KEY_4]` read through `tracked`. -/
theorem key4_eq_tracked (ks : KeyStates) : key4 ks = tracked ks KEY_4 := rfl

/-- One KEY event with value 0, 1 or 2 keeps `combo` between 0 and the number
of chord keys tracked as pressed. -/
theorem held_step (m : Bool) (s s1 : State) (ev : InputEvent) (acts : List Action)
    (h : processEvent m s ev = some (s1, acts)) (ht : ev.type = EV_KEY)
    (hv : ev.value = 0 ∨ ev.value = 1 ∨ ev.value = 2)
    (hJ : 0 ≤ s.combo ∧ s.combo ≤ (heldChordKeys s.keyStates : Int)) :
    0 ≤ s1.combo ∧ s1.combo ≤ (heldChordKeys s1.keyStates : Int) := by
  rcases processEvent_some m s s1 ev acts h with ⟨hne, _, _⟩ | ⟨_, hc, hks, hcombo, _⟩
  · exact absurd ht hne
  · rw [keySwitch_combo, key3_eq_tracked, key4_eq_tracked, hks] at hcombo
    rw [hcombo, hks]
    unfold heldChordKeys at hJ ⊢
    simp only [tracked_setKey] at hcombo ⊢
    generalize tracked s.keyStates KEY_1 = a1 at *
    generalize tracked s.keyStates KEY_2 = a2 at *
    generalize tracked s.keyStates KEY_3 = a3 at *
    generalize tracked s.keyStates KEY_4 = a4 at *
    generalize s.combo = k at *
    generalize ev.code = c at *
    generalize ev.value = v at *
    clear hcombo hks h
    obtain ⟨hk0, hk⟩ := hJ
    by_cases h1 : c = KEY_1
    · subst h1
      rcases hv with rfl | rfl | rfl <;>
      simp only [KEY_1, KEY_2, KEY_3, KEY_4, toChar] at hk ⊢ <;> norm_num at hk ⊢ <;>
      split_ifs at hk ⊢ <;> omega
    by_cases h2 : c = KEY_2
    · subst h2
      rcases hv with rfl | rfl | rfl <;>
      simp only [KEY_1, KEY_2, KEY_3, KEY_4, toChar] at hk ⊢ <;> norm_num at hk ⊢ <;>
      split_ifs at hk ⊢ <;> omega
    by_cases h3 : c = KEY_3
    · subst h3
      rcases hv with rfl | rfl | rfl <;>
      simp only [KEY_1, KEY_2, KEY_3, KEY_4, toChar] at hk ⊢ <;> norm_num at hk ⊢ <;>
      split_ifs at hk ⊢ <;> omega
    by_cases h4 : c = KEY_4
    · subst h4
      rcases hv with rfl | rfl | rfl <;>
      simp only [KEY_1, KEY_2, KEY_3, KEY_4, toChar] at hk ⊢ <;> norm_num at hk ⊢ <;>
      split_ifs at hk ⊢ <;> omega
    · simp only [Ne.symm h1, Ne.symm h2, Ne.symm h3, Ne.symm h4, h1, h2, h3, h4, if_false,
        false_and, or_self, false_or]
      exact ⟨hk0, hk⟩


/-! ## No leaked suppression -/

/-- A run of KEY events with values 0, 1, 2 keeps `combo` between 0 and the
number of chord keys tracked as pressed. -/
theorem held_run (s s1 : State) (l : List (Bool × InputEvent)) (acts : List Action)
    (hl : ∀ e ∈ l, e.2.type = EV_KEY ∧ (e.2.value = 0 ∨ e.2.value = 1 ∨ e.2.value = 2))
    (hJ : 0 ≤ s.combo ∧ s.combo ≤ (heldChordKeys s.keyStates : Int))
    (h : processEvents s l = some (s1, acts)) :
    0 ≤ s1.combo ∧ s1.combo ≤ (heldChordKeys s1.keyStates : Int) := by
  induction l generalizing s acts with
  | nil =>
    simp only [processEvents, Option.some.injEq, Prod.mk.injEq] at h
    rw [← h.1]; exact hJ
  | cons e l ih =>
    obtain ⟨m, ev⟩ := e
    obtain ⟨s', o1, o2, h1, h2, _⟩ := processEvents_cons_some m s s1 ev l acts h
    have he := hl (m, ev) (List.mem_cons_self _ _)
    exact ih s' o2 (fun e he => hl e (List.mem_cons_of_mem _ he))
      (held_step m s s' ev o1 h1 he.1 he.2 hJ) h2

/-- With no chord key tracked as pressed, `keyStates[KEY_3]` and
`keyStates[KEY_4]` are zero. -/
theorem held_zero (ks : KeyStates) (h : heldChordKeys ks = 0) : key3 ks = 0 ∧ key4 ks = 0 := by
  rw [key3_eq_tracked, key4_eq_tracked]
  unfold heldChordKeys at h
  constructor
  · by_contra hne; simp [hne] at h
  · by_contra hne; simp [hne] at h

/-- A press of a chord key while neither KEY_3 nor KEY_4 is tracked as pressed
makes no call and keeps `combo`. -/
theorem press_inert (m : Bool) (s : State) (c : Nat) (v : Int) (hv : v ≠ 0)
    (hc : c = KEY_1 ∨ c = KEY_2 ∨ c = KEY_3 ∨ c = KEY_4)
    (h3 : key3 s.keyStates = 0) (h4 : key4 s.keyStates = 0) :
    ∃ s1, processEvent m s (keyEvent c v) = some (s1, []) ∧ s1.combo = s.combo := by
  rcases hc with rfl | rfl | rfl | rfl
  · obtain ⟨s1, e, k, _⟩ := press_KEY_1 m s v hv
    simp only [h3, ne_eq, not_true_eq_false, if_false] at e k
    exact ⟨s1, e, k⟩
  · obtain ⟨s1, e, k, _⟩ := press_KEY_2 m s v hv
    simp only [h4, ne_eq, not_true_eq_false, if_false] at e k
    exact ⟨s1, e, k⟩
  · obtain ⟨s1, e, k, _⟩ := press_KEY_3 m s v hv
    exact ⟨s1, e, k⟩
  · obtain ⟨s1, e, k, _⟩ := press_KEY_4 m s v hv
    exact ⟨s1, e, k⟩

/-- No leaked suppression on runs that stay inside the array: starting with
every key state 0 and `combo` = 0, for every sequence of KEY events with values
in {0, 1, 2} and every mode schedule, the run has a result when all codes are
in 0..255, and in every result (so after every event) `combo` is at least 0
and at most the number of keys among KEY_1, KEY_2, KEY_3, KEY_4 whose key state
is non-zero. When that number is 0, `combo` is 0 and, for each of the four
keys, a release makes its tap, as does a press followed by a release. -/
theorem no_leaked_suppression_in_range (l : List (Bool × InputEvent))
    (hl : ∀ e ∈ l, e.2.type = EV_KEY ∧ (e.2.value = 0 ∨ e.2.value = 1 ∨ e.2.value = 2)) :
    ((∀ e ∈ l, e.2.code < 256) → ∃ r, processEvents (startState (fun _ => 0)) l = some r) ∧
    ∀ s1 acts, processEvents (startState (fun _ => 0)) l = some (s1, acts) →
      0 ≤ s1.combo ∧ s1.combo ≤ (heldChordKeys s1.keyStates : Int) ∧
      (heldChordKeys s1.keyStates = 0 → s1.combo = 0 ∧
        ∀ (m m2 : Bool) (c btn gpad : Nat),
          (c, btn, gpad) ∈ [(KEY_1, BTN_START, GPAD1), (KEY_3, BTN_SELECT, GPAD1),
            (KEY_2, BTN_START, GPAD2), (KEY_4, BTN_SELECT, GPAD2)] →
          outcome (processEvent m s1 (keyEvent c 0)) =
            some (0, [Action.gpadWrite gpad btn 1 EV_KEY, Action.gpadSleep,
              Action.gpadWrite gpad btn 0 EV_KEY]) ∧
          outcome (processEvents s1 [(m, keyEvent c 1), (m2, keyEvent c 0)]) =
            some (0, [Action.gpadWrite gpad btn 1 EV_KEY, Action.gpadSleep,
              Action.gpadWrite gpad btn 0 EV_KEY])) := by
  refine ⟨fun hc => processEvents_defined _ l (fun e he _ => hc e he), fun s1 acts h => ?_⟩
  have hJ := held_run (startState (fun _ => 0)) s1 l acts hl ⟨le_refl _, le_refl _⟩ h
  refine ⟨hJ.1, hJ.2, fun hz => ?_⟩
  have hk : s1.combo = 0 := by
    have := hJ.2; rw [hz] at this; have := hJ.1; omega
  refine ⟨hk, fun m m2 c btn gpad hmem => ?_⟩
  obtain ⟨h3, h4⟩ := held_zero _ hz
  have hc : c = KEY_1 ∨ c = KEY_2 ∨ c = KEY_3 ∨ c = KEY_4 := by
    simp only [List.mem_cons, Prod.mk.injEq, List.mem_singleton, List.not_mem_nil,
      or_false] at hmem
    obtain h | h | h | h := hmem <;> simp [h.1]
  obtain ⟨t, e, k⟩ := release_tap m s1 c btn gpad hmem hk
  obtain ⟨p, ep, kp⟩ := press_inert m s1 c 1 (by decide) hc h3 h4
  obtain ⟨q, eq, kq⟩ := release_tap m2 p c btn gpad hmem (by rw [kp, hk])
  refine ⟨outcome_of _ t _ _ e k, ?_⟩
  rw [outcome_cons _ _ _ _ _ _ ep, outcome_cons _ _ _ _ _ _ eq, outcome_nil, kq]; rfl

/-- Witness of `no_leaked_suppression_in_range`: press KEY_3, press KEY_1 (the
chord fires), release KEY_1, release KEY_3. -/
theorem no_leaked_suppression_in_range_witness :
    (∀ e ∈ [(false, keyEvent KEY_3 1), (false, keyEvent KEY_1 1), (false, keyEvent KEY_1 0),
        (false, keyEvent KEY_3 0)],
      e.2.type = EV_KEY ∧ (e.2.value = 0 ∨ e.2.value = 1 ∨ e.2.value = 2)) ∧
    (∀ e ∈ [(false, keyEvent KEY_3 1), (false, keyEvent KEY_1 1), (false, keyEvent KEY_1 0),
        (false, keyEvent KEY_3 0)], e.2.code < 256) ∧
    ∃ r, processEvents (startState (fun _ => 0))
      [(false, keyEvent KEY_3 1), (false, keyEvent KEY_1 1), (false, keyEvent KEY_1 0),
        (false, keyEvent KEY_3 0)] = some r :=
  ⟨by decide, by decide, (no_leaked_suppression_in_range _ (by decide)).1 (by decide)⟩

/-- C18 (the code at the failing input): from the state with every key state 0
and `combo` = 0, where no chord key is tracked as pressed, the one-event
sequence made of the KEY event with code 280 and value 1 (a KEY event with a
value in {0, 1, 2}) stores into `keyStates[280]`, outside the 256-entry array:
the run has no defined result, in either mode, so `combo` is not kept at or
below the number of chord keys tracked as pressed, which is 0. -/
theorem no_leaked_suppression_out_of_range :
    (∀ e ∈ [(false, keyEvent 280 1)],
      e.2.type = EV_KEY ∧ (e.2.value = 0 ∨ e.2.value = 1 ∨ e.2.value = 2)) ∧
    heldChordKeys (startState (fun _ => 0)).keyStates = 0 ∧
    processEvents (startState (fun _ => 0)) [(false, keyEvent 280 1)] = none ∧
    processEvents (startState (fun _ => 0)) [(true, keyEvent 280 1)] = none ∧
    processEvents (startState (fun _ => 0))
      [(false, keyEvent KEY_3 1), (false, keyEvent 280 1), (false, keyEvent KEY_3 0)] = none := by
  refine ⟨by decide, by decide, rfl, rfl, rfl⟩

/-! ## Auto-repeat -/

/-- Repeats of KEY_1 while `keyStates[KEY_3]` is non-zero: one Escape tap each. -/
theorem repeats_KEY_1 (s : State) (hs : key3 s.keyStates ≠ 0) (ms : List Bool) :
    ∃ s1, processEvents s (ms.map (fun m => (m, keyEvent KEY_1 2))) =
        some (s1, escapeTaps ms.length) ∧
      s1.combo = (if ms = [] then s.combo else 2) := by
  induction ms generalizing s with
  | nil => exact ⟨s, rfl, rfl⟩
  | cons m ms ih =>
    obtain ⟨s1, e1, k1, h3, _⟩ := press_KEY_1 m s 2 (by decide)
    rw [if_pos hs] at e1 k1
    obtain ⟨s2, e2, k2⟩ := ih s1 (by rw [h3]; exact hs)
    refine ⟨s2, ?_, ?_⟩
    · rw [List.map_cons, processEvents_cons, e1, Option.some_bind, e2]; rfl
    · rw [k2, k1]; simp

/-- Repeats of KEY_2 while `keyStates[KEY_4]` is non-zero: one Escape tap each. -/
theorem repeats_KEY_2 (s : State) (hs : key4 s.keyStates ≠ 0) (ms : List Bool) :
    ∃ s1, processEvents s (ms.map (fun m => (m, keyEvent KEY_2 2))) =
        some (s1, escapeTaps ms.length) ∧
      s1.combo = (if ms = [] then s.combo else 2) := by
  induction ms generalizing s with
  | nil => exact ⟨s, rfl, rfl⟩
  | cons m ms ih =>
    obtain ⟨s1, e1, k1, _, h4⟩ := press_KEY_2 m s 2 (by decide)
    rw [if_pos hs] at e1 k1
    obtain ⟨s2, e2, k2⟩ := ih s1 (by rw [h4]; exact hs)
    refine ⟨s2, ?_, ?_⟩
    · rw [List.map_cons, processEvents_cons, e1, Option.some_bind, e2]; rfl
    · rw [k2, k1]; simp

/-- C19: from every state with `keyStates[KEY_3]` non-zero, in any mode, a
KEY_1 event with value 2 makes the calls of one Escape tap and sets `combo` to
2, and a press of KEY_1 followed by n repeats of KEY_1 (any mode at each
event) makes the calls of exactly n + 1 Escape taps and ends with `combo` = 2;
likewise for KEY_2 with `keyStates[KEY_4]` non-zero. The keyboard writes of n
Escape taps are n pairs (KEY_ESC, 1, EV_KEY), (KEY_ESC, 0, EV_KEY). -/
theorem repeat_refires (s : State) (m0 : Bool) (ms : List Bool) :
    (key3 s.keyStates ≠ 0 →
      (∀ m, outcome (processEvent m s (keyEvent KEY_1 2)) =
        some (2, [Action.kbdWrite KEY_ESC 1 EV_KEY, Action.kbdSleep,
          Action.kbdWrite KEY_ESC 0 EV_KEY])) ∧
      outcome (processEvents s
          ((m0, keyEvent KEY_1 1) :: ms.map (fun m => (m, keyEvent KEY_1 2)))) =
        some (2, escapeTaps (ms.length + 1))) ∧
    (key4 s.keyStates ≠ 0 →
      (∀ m, outcome (processEvent m s (keyEvent KEY_2 2)) =
        some (2, [Action.kbdWrite KEY_ESC 1 EV_KEY, Action.kbdSleep,
          Action.kbdWrite KEY_ESC 0 EV_KEY])) ∧
      outcome (processEvents s
          ((m0, keyEvent KEY_2 1) :: ms.map (fun m => (m, keyEvent KEY_2 2)))) =
        some (2, escapeTaps (ms.length + 1))) ∧
    (∀ n, kbdWrites (escapeTaps n) =
      (List.replicate n
        [Action.kbdWrite KEY_ESC 1 EV_KEY, Action.kbdWrite KEY_ESC 0 EV_KEY]).flatten) := by
  refine ⟨fun h3 => ⟨fun m => ?_, ?_⟩, fun h4 => ⟨fun m => ?_, ?_⟩, fun n => ?_⟩
  · obtain ⟨s1, e1, k1, _⟩ := press_KEY_1 m s 2 (by decide)
    rw [if_pos h3] at e1 k1
    exact outcome_of _ s1 _ _ e1 k1
  · obtain ⟨s1, e1, k1, h3', _⟩ := press_KEY_1 m0 s 1 (by decide)
    rw [if_pos h3] at e1 k1
    obtain ⟨s2, e2, k2⟩ := repeats_KEY_1 s1 (by rw [h3']; exact h3) ms
    rw [processEvents_cons, e1, Option.some_bind, e2]
    have : s2.combo = 2 := by rw [k2, k1]; simp
    simp [outcome, this, escapeTaps]
  · obtain ⟨s1, e1, k1, _⟩ := press_KEY_2 m s 2 (by decide)
    rw [if_pos h4] at e1 k1
    exact outcome_of _ s1 _ _ e1 k1
  · obtain ⟨s1, e1, k1, _, h4'⟩ := press_KEY_2 m0 s 1 (by decide)
    rw [if_pos h4] at e1 k1
    obtain ⟨s2, e2, k2⟩ := repeats_KEY_2 s1 (by rw [h4']; exact h4) ms
    rw [processEvents_cons, e1, Option.some_bind, e2]
    have : s2.combo = 2 := by rw [k2, k1]; simp
    simp [outcome, this, escapeTaps]
  · induction n with
    | zero => rfl
    | succ n ih =>
      have hstep : kbdWrites (escapeTaps (n + 1)) =
          kbdWrites (x2j_write_keyboard KEY_ESC) ++ kbdWrites (escapeTaps n) := by
        simp [escapeTaps, kbdWrites, List.filter_append]
      rw [hstep, ih, List.replicate_succ, List.flatten_cons]
      rfl

/-- Witness of `repeat_refires`: KEY_3 tracked as pressed, a press and two
repeats of KEY_1. -/
theorem repeat_refires_witness :
    key3 (stateWith [KEY_3] 0).keyStates ≠ 0 ∧
    outcome (processEvents (stateWith [KEY_3] 0)
        ((false, keyEvent KEY_1 1) :: [false, true].map (fun m => (m, keyEvent KEY_1 2)))) =
      some (2, escapeTaps ([false, true].length + 1)) :=
  ⟨by decide, ((repeat_refires (stateWith [KEY_3] 0) false [false, true]).1 (by decide)).2⟩

/-! ## Codes outside the array -/

/-- C20 (the code at the failing inputs): a KEY event with code 256 (or any
code 256 + k, such as 767 = KEY_MAX) stores into `keyStates[code]`, outside
the 256-entry array: the iteration has no defined result, in either mode and
from every state, and neither has a batch that contains such an event. -/
theorem out_of_range_store :
    processEvent false (stateWith [] 0) (keyEvent 256 1) = none ∧
    processEvent true (stateWith [] 0) (keyEvent 256 0) = none ∧
    processEvents (stateWith [] 0) [(false, keyEvent KEY_A 1), (false, keyEvent 767 1)] = none ∧
    ∀ (mame : Bool) (s : State) (k : Nat) (v : Int),
      processEvent mame s (keyEvent (256 + k) v) = none := by
  refine ⟨rfl, rfl, rfl, fun mame s k v => ?_⟩
  simp [processEvent, keyEvent, EV_KEY, EV_MSC]

end Xarcade2Jstick
